import Mathlib

/-!
# Verification of the Dexed-tweaks data model, packed codec and message framing

This file is a shallow embedding, in Lean 4, of the algorithmic core of the
dexed-tweaks python library (file src/DexedTweaks/dexed.py): the fixed-layout
parameter records (Oscillator, Voice, Function records and the Cart of 32
voices), the bit-packing codec between the 155-byte unpacked voice layout and
the 128-byte packed layout, the wire-message framing (parameter change,
single-voice dump, bulk dump) with their checksums, and the file read/write
paths.

Conventions of the embedding:
* python byte strings and lists of small integers become List Nat;
* python integers that can be negative (parameter values before validation,
  raw indices) become Int;
* python bitwise operations are kept literally: x & m is x &&& m,
  x << k is x <<< k, x >> k is x >>> k on Nat. On arbitrary-precision
  python ints, (-s) & 0x7F equals the nonnegative remainder (-s) mod 128,
  which is how the twos-complement checksum is rendered;
* functions that raise become Except String valued;
* the MIDI transport is abstracted away: a send operation is modelled by the
  byte sequence(s) it hands to the transport.
-/

set_option maxRecDepth 100000

/-! ## Packed-format codec

Source: Cart._convert_to_32_voice_dump_format and
Cart._convert_from_32_voice_dump_format. The loop bodies write consecutive
disjoint blocks of the output bytearray (17-byte packed oscillator blocks at
offsets 0,17,...,85 and the 26-byte packed voice tail at offset 102, for each
128-byte voice block), so the loops are rendered as concatenation of the
per-block transforms. -/

/-- Packing of one 21-byte oscillator block into 17 packed bytes.
Mirrors the inner j-loop of Cart._convert_to_32_voice_dump_format:
temp_data[:11] = oscillator_data[:11] and the five bit-merged bytes. -/
def packOscBytes (d : List Nat) : List Nat :=
  d.take 11 ++
  [(d.getD 11 0 &&& 0b11) + ((d.getD 12 0 &&& 0b11) <<< 2),
   (d.getD 13 0 &&& 0b111) + ((d.getD 20 0 &&& 0b1111) <<< 3),
   (d.getD 14 0 &&& 0b11) + ((d.getD 15 0 &&& 0b111) <<< 2),
   d.getD 16 0,
   (d.getD 17 0 &&& 0b1) + ((d.getD 18 0 &&& 0b11111) <<< 1),
   d.getD 19 0]

/-- Packing of the 29-byte voice tail into 26 packed bytes.
Mirrors the tail part of Cart._convert_to_32_voice_dump_format. -/
def packVoiceTail (d : List Nat) : List Nat :=
  d.take 8 ++
  [d.getD 8 0 &&& 0b11111,
   (d.getD 9 0 &&& 0b111) + ((d.getD 10 0 &&& 0b1) <<< 3)] ++
  (d.drop 11).take 4 ++
  [(d.getD 15 0 &&& 0b1) + ((d.getD 16 0 &&& 0b1111) <<< 1) +
     ((d.getD 17 0 &&& 0b11) <<< 5)] ++
  (d.drop 18).take 11

/-- Unpacking of one 17-byte packed oscillator block back to 21 bytes.
Mirrors the inner j-loop of Cart._convert_from_32_voice_dump_format. -/
def unpackOscBytes (d : List Nat) : List Nat :=
  d.take 11 ++
  [d.getD 11 0 &&& 0b11,
   (d.getD 11 0 &&& 0b1100) >>> 2,
   d.getD 12 0 &&& 0b111,
   d.getD 13 0 &&& 0b11,
   (d.getD 13 0 &&& 0b11100) >>> 2,
   d.getD 14 0,
   d.getD 15 0 &&& 0b1,
   (d.getD 15 0 &&& 0b111110) >>> 1,
   d.getD 16 0,
   (d.getD 12 0 &&& 0b1111000) >>> 3]

/-- Unpacking of the 26-byte packed voice tail back to 29 bytes.
Mirrors the tail part of Cart._convert_from_32_voice_dump_format
(temp_data[18:] = voice_param_data[15:] appends the remaining 11 bytes). -/
def unpackVoiceTail (d : List Nat) : List Nat :=
  d.take 8 ++
  [d.getD 8 0 &&& 0x1F,
   d.getD 9 0 &&& 0b111,
   (d.getD 9 0 &&& 0b1000) >>> 3] ++
  (d.drop 10).take 4 ++
  [d.getD 14 0 &&& 0b1,
   (d.getD 14 0 &&& 0b11110) >>> 1,
   (d.getD 14 0 &&& 0b1100000) >>> 5] ++
  (d.drop 15).take 11

/-- One voice's 155 unpacked bytes to its 128 packed bytes: six packed
oscillator blocks (oscillator slices at offsets 21*j) then the packed tail
(slice at offset 126). -/
def packVoice (v : List Nat) : List Nat :=
  (List.range 6).flatMap (fun j => packOscBytes ((v.drop (21*j)).take 21)) ++
  packVoiceTail ((v.drop 126).take 29)

/-- One voice's 128 packed bytes back to 155 unpacked bytes: six unpacked
oscillator blocks (packed slices at offsets 17*j) then the unpacked tail
(slice at offset 102 = 6*17). -/
def unpackVoice (v : List Nat) : List Nat :=
  (List.range 6).flatMap (fun j => unpackOscBytes ((v.drop (17*j)).take 17)) ++
  unpackVoiceTail ((v.drop 102).take 26)

/-- Cart._convert_to_32_voice_dump_format: 32 voice blocks of 155 bytes
(slices at offsets 155*i) each packed to 128 bytes. -/
def convertTo32VoiceDumpFormat (data : List Nat) : List Nat :=
  (List.range 32).flatMap (fun i => packVoice ((data.drop (155*i)).take 155))

/-- Cart._convert_from_32_voice_dump_format: 32 packed voice blocks of 128
bytes (slices at offsets 128*i) each unpacked to 155 bytes. -/
def convertFrom32VoiceDumpFormat (data : List Nat) : List Nat :=
  (List.range 32).flatMap (fun i => unpackVoice ((data.drop (128*i)).take 128))

/-! ## Checksums -/

/-- The twos-complement 7-bit checksum used by Cart.save_to_file,
Cart.send_to_dexed and checked by Cart.read_from_file:
python (-1*sum(payload)) & 0x7F, i.e. the nonnegative value of
(-sum) mod 128. -/
def twosComplementChecksum (payload : List Nat) : Nat :=
  ((-(payload.sum : Int)) % 128).toNat

/-- The plain masked-sum checksum used by Voice.send_to_dexed:
python 0x7F & sum(payload). -/
def maskedSumChecksum (payload : List Nat) : Nat :=
  0x7F &&& payload.sum

/-! ## Parameter records

The named fields of the Oscillator, Voice and Function records, with the
byte offset each name maps to (the _parameter_indices dictionaries) and the
documented range of each named setter. -/

/-- The 21 named Oscillator parameters, in the order of
Oscillator._parameter_indices. -/
inductive OscParam where
  | EG_RATE_1 | EG_RATE_2 | EG_RATE_3 | EG_RATE_4
  | EG_LEVEL_1 | EG_LEVEL_2 | EG_LEVEL_3 | EG_LEVEL_4
  | Breakpoint | Left_Depth | Right_Depth | Left_Curve | Right_Curve
  | Rate_Scaling | Amp_Mod_Scaling | Key_Velocity | Output_Level
  | Oscillator_Mode | Frequency_Coarse | Frequency_Fine | Detune
  deriving DecidableEq, Fintype

/-- Oscillator._parameter_indices: name to byte offset. -/
def oscParamIndex : OscParam → Nat
  | .EG_RATE_1 => 0 | .EG_RATE_2 => 1 | .EG_RATE_3 => 2 | .EG_RATE_4 => 3
  | .EG_LEVEL_1 => 4 | .EG_LEVEL_2 => 5 | .EG_LEVEL_3 => 6 | .EG_LEVEL_4 => 7
  | .Breakpoint => 8 | .Left_Depth => 9 | .Right_Depth => 10
  | .Left_Curve => 11 | .Right_Curve => 12 | .Rate_Scaling => 13
  | .Amp_Mod_Scaling => 14 | .Key_Velocity => 15 | .Output_Level => 16
  | .Oscillator_Mode => 17 | .Frequency_Coarse => 18 | .Frequency_Fine => 19
  | .Detune => 20

/-- The documented upper bound of each Oscillator named setter (every
setter checks value < 0 or value > max and raises a ValueError otherwise). -/
def oscParamMax : OscParam → Nat
  | .EG_RATE_1 => 99 | .EG_RATE_2 => 99 | .EG_RATE_3 => 99 | .EG_RATE_4 => 99
  | .EG_LEVEL_1 => 99 | .EG_LEVEL_2 => 99 | .EG_LEVEL_3 => 99 | .EG_LEVEL_4 => 99
  | .Breakpoint => 99 | .Left_Depth => 99 | .Right_Depth => 99
  | .Left_Curve => 3 | .Right_Curve => 3 | .Rate_Scaling => 7
  | .Amp_Mod_Scaling => 3 | .Key_Velocity => 7 | .Output_Level => 99
  | .Oscillator_Mode => 1 | .Frequency_Coarse => 31 | .Frequency_Fine => 99
  | .Detune => 14

/-- The 21 named Voice parameters, in the order of
Voice._voice_parameter_indices (Voice_Name is the starting index of the
10-byte name, ActiveOscillators is the derived read-only bitmask). -/
inductive VoiceParam where
  | Pitch_EG_Rate_1 | Pitch_EG_Rate_2 | Pitch_EG_Rate_3 | Pitch_EG_Rate_4
  | Pitch_EG_Level_1 | Pitch_EG_Level_2 | Pitch_EG_Level_3 | Pitch_EG_Level_4
  | Algorithm | Feedback | Oscillator_Key_Sync
  | LFO_Speed | LFO_Delay | LFO_Pitch_Mod_Depth | LFO_Amp_Mod_Depth
  | LFO_Key_Sync | LFO_Waveform_Shape | Pitch_Mod_Sensitivity | Transpose
  | Voice_Name | ActiveOscillators
  deriving DecidableEq, Fintype

/-- Voice._voice_parameter_indices: name to byte offset. -/
def voiceParamIndex : VoiceParam → Nat
  | .Pitch_EG_Rate_1 => 0 | .Pitch_EG_Rate_2 => 1 | .Pitch_EG_Rate_3 => 2
  | .Pitch_EG_Rate_4 => 3 | .Pitch_EG_Level_1 => 4 | .Pitch_EG_Level_2 => 5
  | .Pitch_EG_Level_3 => 6 | .Pitch_EG_Level_4 => 7 | .Algorithm => 8
  | .Feedback => 9 | .Oscillator_Key_Sync => 10 | .LFO_Speed => 11
  | .LFO_Delay => 12 | .LFO_Pitch_Mod_Depth => 13 | .LFO_Amp_Mod_Depth => 14
  | .LFO_Key_Sync => 15 | .LFO_Waveform_Shape => 16
  | .Pitch_Mod_Sensitivity => 17 | .Transpose => 18
  | .Voice_Name => 19 | .ActiveOscillators => 29

/-- The documented upper bound of each scalar Voice named setter; none for
Voice_Name (a string setter) and ActiveOscillators (read only). -/
def voiceParamMax : VoiceParam → Option Nat
  | .Pitch_EG_Rate_1 => some 99 | .Pitch_EG_Rate_2 => some 99
  | .Pitch_EG_Rate_3 => some 99 | .Pitch_EG_Rate_4 => some 99
  | .Pitch_EG_Level_1 => some 99 | .Pitch_EG_Level_2 => some 99
  | .Pitch_EG_Level_3 => some 99 | .Pitch_EG_Level_4 => some 99
  | .Algorithm => some 31 | .Feedback => some 7
  | .Oscillator_Key_Sync => some 1 | .LFO_Speed => some 99
  | .LFO_Delay => some 99 | .LFO_Pitch_Mod_Depth => some 99
  | .LFO_Amp_Mod_Depth => some 99 | .LFO_Key_Sync => some 1
  | .LFO_Waveform_Shape => some 5 | .Pitch_Mod_Sensitivity => some 7
  | .Transpose => some 48
  | .Voice_Name => none | .ActiveOscillators => none

/-- The 14 named Function parameters, in the order of the Function record's
_parameter_indices. -/
inductive FunctionParam where
  | Mono_Poly_Mode | Pitch_Bend_Range | Pitch_Bend_Step
  | Portamento_Mode | Portamento_Gliss | Portamento_Time
  | Mod_Wheel_Range | Mod_Wheel_Assign
  | Foot_Control_Range | Foot_Control_Assign
  | Breath_Control_Range | Breath_Control_Assign
  | Aftertouch_Range | Aftertouch_Assign
  deriving DecidableEq, Fintype

/-- Function._parameter_indices: name to byte offset. -/
def functionParamIndex : FunctionParam → Nat
  | .Mono_Poly_Mode => 0 | .Pitch_Bend_Range => 1 | .Pitch_Bend_Step => 2
  | .Portamento_Mode => 3 | .Portamento_Gliss => 4 | .Portamento_Time => 5
  | .Mod_Wheel_Range => 6 | .Mod_Wheel_Assign => 7
  | .Foot_Control_Range => 8 | .Foot_Control_Assign => 9
  | .Breath_Control_Range => 10 | .Breath_Control_Assign => 11
  | .Aftertouch_Range => 12 | .Aftertouch_Assign => 13

/-- The documented upper bound of each Function named setter. -/
def functionParamMax : FunctionParam → Nat
  | .Mono_Poly_Mode => 1 | .Pitch_Bend_Range => 12 | .Pitch_Bend_Step => 12
  | .Portamento_Mode => 1 | .Portamento_Gliss => 1 | .Portamento_Time => 99
  | .Mod_Wheel_Range => 99 | .Mod_Wheel_Assign => 7
  | .Foot_Control_Range => 99 | .Foot_Control_Assign => 7
  | .Breath_Control_Range => 99 | .Breath_Control_Assign => 7
  | .Aftertouch_Range => 99 | .Aftertouch_Assign => 7

/-! ## MIDI addresses (midi_addr_of) -/

/-- Oscillator.midi_addr_of for a named parameter of the oscillator with
the given number (1-6): local offset + 21*(6 - number). -/
def oscMidiAddrOf (number : Nat) (p : OscParam) : Nat :=
  oscParamIndex p + 21 * (6 - number)

/-- Voice.midi_addr_of for a named parameter: local offset + 21*6. -/
def voiceMidiAddrOf (p : VoiceParam) : Nat :=
  voiceParamIndex p + 21 * 6

/-- Function record midi_addr_of for a named parameter: local offset + 64. -/
def functionMidiAddrOf (p : FunctionParam) : Nat :=
  functionParamIndex p + 64

/-- A field of the combined oscillator+voice address space: one of the 21
parameters of one of the six oscillators, or one of the 21 Voice parameters. -/
inductive OscVoiceField where
  | osc (n : Fin 6) (p : OscParam)
  | voice (p : VoiceParam)
  deriving DecidableEq, Fintype

/-- The MIDI address of a field of the combined oscillator+voice space
(oscillator slot n holds the oscillator numbered n+1). -/
def oscVoiceAddrOf : OscVoiceField → Nat
  | .osc n p => oscMidiAddrOf (n.1 + 1) p
  | .voice p => voiceMidiAddrOf p

/-! ## Record state and raw/named access

An Oscillator holds its number (1-6), its 21-byte _oscillator_data list and
the active flag; a Voice holds its number (0-31), its six oscillators and
its 29-byte _voice_data list (bytes 19-28 are the name). Python mutation
through a named setter or an indexed write is modelled as a function from the
data list to an Except of the new data list. -/

structure OscillatorRec where
  number : Nat
  data : List Nat
  active : Bool
  deriving DecidableEq

structure VoiceRec where
  number : Nat
  osc1 : OscillatorRec
  osc2 : OscillatorRec
  osc3 : OscillatorRec
  osc4 : OscillatorRec
  osc5 : OscillatorRec
  osc6 : OscillatorRec
  data : List Nat
  deriving DecidableEq

/-- An Oscillator as built by Oscillator(number): 21 zero bytes, active. -/
def defaultOscillator (number : Nat) : OscillatorRec :=
  { number := number, data := List.replicate 21 0, active := true }

/-- A Voice as built by Voice(i): 29 zero bytes of voice data (so the name
bytes default to ten NUL bytes) and six default oscillators. -/
def defaultVoice (i : Nat) : VoiceRec :=
  { number := i
    osc1 := defaultOscillator 1, osc2 := defaultOscillator 2
    osc3 := defaultOscillator 3, osc4 := defaultOscillator 4
    osc5 := defaultOscillator 5, osc6 := defaultOscillator 6
    data := List.replicate 29 0 }

/-- The data-population loop of the Oscillator/Voice constructors when a
data keyword is given: copy source bytes into a zeroed buffer of the given
size until the buffer is full or the source is exhausted. -/
def pyDataInit (size : Nat) (src : List Nat) : List Nat :=
  src.take size ++ List.replicate (size - src.length) 0

/-- Voice.ActiveOscillators: the bitmask read from the binary string with
the digit of Oscillator1 first (most significant) down to Oscillator6. -/
def activeOscillators (v : VoiceRec) : Nat :=
  [v.osc1, v.osc2, v.osc3, v.osc4, v.osc5, v.osc6].foldl
    (fun acc o => 2 * acc + (if o.active then 1 else 0)) 0

/-- A named Oscillator setter (the property setters of the Oscillator
class): raise a ValueError and leave the data unchanged when the value is
below 0 or above the documented maximum, otherwise store the value at the
field's offset. -/
def oscSetNamed (d : List Nat) (p : OscParam) (v : Int) : Except String (List Nat) :=
  if v < 0 ∨ v > (oscParamMax p : Int) then
    .error "This parameter is out of its documented range"
  else
    .ok (d.set (oscParamIndex p) v.toNat)

/-- A named scalar Voice setter, same discipline as the Oscillator setters
(only defined for the fields that have a scalar setter). -/
def voiceSetNamed (d : List Nat) (p : VoiceParam) (v : Int) : Except String (List Nat) :=
  match voiceParamMax p with
  | none => .error "not a scalar settable parameter"
  | some m =>
    if v < 0 ∨ v > (m : Int) then
      .error "This parameter is out of its documented range"
    else
      .ok (d.set (voiceParamIndex p) v.toNat)

/-- A named Function setter, same discipline as the Oscillator setters. -/
def functionSetNamed (d : List Nat) (p : FunctionParam) (v : Int) : Except String (List Nat) :=
  if v < 0 ∨ v > (functionParamMax p : Int) then
    .error "This parameter is out of its documented range"
  else
    .ok (d.set (functionParamIndex p) v.toNat)

/-! ### Raw integer-indexed access

The __getitem__ methods of Oscillator, Voice and Function all check the
index explicitly (index < 0 or index > size-1 raises IndexError).
Voice.__setitem__ also checks the index; Oscillator.__setitem__ and the
Function record's __setitem__ do not, so the write goes straight to the
underlying python list, which accepts negative indices -size..-1 (they alias
from the end) and raises IndexError otherwise. All three raw writes store
0xFF & abs(value). -/

/-- Python list item assignment: a negative index counts from the end, an
index out of the list raises IndexError. -/
def pyListSet (d : List Nat) (index : Int) (v : Nat) : Except String (List Nat) :=
  if 0 ≤ index ∧ index < (d.length : Int) then .ok (d.set index.toNat v)
  else if -(d.length : Int) ≤ index ∧ index < 0 then
    .ok (d.set (index + d.length).toNat v)
  else .error "IndexError: list assignment index out of range"

/-- Oscillator.__getitem__. -/
def oscGetItem (d : List Nat) (index : Int) : Except String Nat :=
  if index < 0 ∨ index > 20 then .error "Index out of range"
  else .ok (d.getD index.toNat 0)

/-- Oscillator.__setitem__: no explicit bounds check, clamps with
0xFF & abs(value), then writes through the python list. -/
def oscSetItem (d : List Nat) (index : Int) (value : Int) : Except String (List Nat) :=
  pyListSet d index (0xFF &&& value.natAbs)

/-- Voice.__getitem__. -/
def voiceGetItem (d : List Nat) (index : Int) : Except String Nat :=
  if index < 0 ∨ index > 28 then .error "Index out of range"
  else .ok (d.getD index.toNat 0)

/-- Voice.__setitem__: explicit bounds check, then clamps with
0xFF & abs(value). -/
def voiceSetItem (d : List Nat) (index : Int) (value : Int) : Except String (List Nat) :=
  if index < 0 ∨ index > 28 then .error "Index out of range"
  else .ok (d.set index.toNat (0xFF &&& value.natAbs))

/-- The Function record's __getitem__. -/
def functionGetItem (d : List Nat) (index : Int) : Except String Nat :=
  if index < 0 ∨ index > 13 then .error "Index out of range"
  else .ok (d.getD index.toNat 0)

/-- The Function record's __setitem__: no explicit bounds check, clamps with
0xFF & abs(value), then writes through the python list. -/
def functionSetItem (d : List Nat) (index : Int) (value : Int) : Except String (List Nat) :=
  pyListSet d index (0xFF &&& value.natAbs)

/-! ## Message framing -/

/-- The value argument of send_dexed_parameter: a single integer, or a
string given by the codes of its ASCII characters. -/
inductive ParamValue where
  | int (v : Int)
  | str (s : List Nat)
  deriving DecidableEq

/-- The byte list the python code derives from the value before the loop:
a one-element list for an integer, the ASCII codes truncated to the first
10 characters for a string (truncation only warns). -/
def paramValueBytes : ParamValue → List Int
  | .int v => [v]
  | .str s => (s.take 10).map (fun c => (c : Int))

/-- The per-byte loop of send_dexed_parameter: each value byte outside
0..127 is masked to its low 7 bits with a warning (python value_byte & 0x7F,
which on a negative int is the nonnegative remainder mod 128); one 7-byte
message is formed per value byte, and the parameter address is incremented
after each message. -/
def paramChangeLoop (parameter channel : Nat) (function_change : Bool) :
    List Int → List (List Nat)
  | [] => []
  | vb :: rest =>
    let value_byte : Nat := if vb < 0 ∨ 127 < vb then ((vb % 128).toNat) else vb.toNat
    let sub_status := 0x01
    let voice_change := if function_change then 0x8 else 0
    ([0xF0, 0x43, sub_status * 16 + channel,
      voice_change + ((parameter >>> 7) &&& 0x03),
      parameter &&& 0x7F, value_byte, 0xF7]) ::
      paramChangeLoop (parameter + 1) channel function_change rest

/-- send_dexed_parameter: validates the parameter address (0..155, else
ValueError) and the channel (0..15, else ValueError); a function_change
address outside 64..77 only prints a warning. Returns the list of messages
handed to the transport. -/
def send_dexed_parameter (parameter : Int) (value : ParamValue)
    (function_change : Bool) (channel : Int) : Except String (List (List Nat)) :=
  if parameter < 0 ∨ 155 < parameter then .error "Parameter must be between 0 and 155"
  else if channel < 0 ∨ 15 < channel then .error "Channel must be between 0 and 15"
  else .ok (paramChangeLoop parameter.toNat channel.toNat function_change
              (paramValueBytes value))

/-- The parameter-change wire message as the specification describes it:
0xF0, 0x43, (1 <<< 4) ||| channel, (functionFlag ? 0x08 : 0x00) |||
((address >>> 7) &&& 0x03), address &&& 0x7F, valueByte &&& 0x7F, 0xF7. -/
def specParamChangeMessage (address channel : Nat) (functionFlag : Bool)
    (valueByte : Int) : List Nat :=
  [0xF0, 0x43, (1 <<< 4) ||| channel,
   (if functionFlag then 0x08 else 0x00) ||| ((address >>> 7) &&& 0x03),
   address &&& 0x7F, (valueByte % 128).toNat, 0xF7]

/-- The 155-byte payload of a single-voice dump: oscillators 1 through 6
then the voice tail (Voice.send_to_dexed iterates the oscillators through
their __getitem__, yielding their 21 data bytes each). -/
def voiceDumpPayload (v : VoiceRec) : List Nat :=
  v.osc1.data ++ v.osc2.data ++ v.osc3.data ++ v.osc4.data ++
  v.osc5.data ++ v.osc6.data ++ v.data

/-- Voice.send_to_dexed: the 163-byte dump message
F0 43 (0x00*16+channel) 00 01 1B, 155 payload bytes, masked-sum checksum,
F7; followed by the call
send_dexed_parameter(self.midi_addr_of('ActiveOscillators'),
self.ActiveOscillators, channel), which passes channel POSITIONALLY into
the third parameter function_change (a python int is truthy exactly when it
is nonzero) while the channel keyword keeps its default 0. The result is
the dump message paired with the messages of that follow-up call. -/
def voice_send_to_dexed (v : VoiceRec) (channel : Nat) :
    List Nat × Except String (List (List Nat)) :=
  let checksum := 0x7F &&& (voiceDumpPayload v).sum
  ([0xF0, 0x43, 0x00 * 16 + channel, 0x00, 0x01, 0x1B] ++
     voiceDumpPayload v ++ [checksum, 0xF7],
   send_dexed_parameter (voiceMidiAddrOf .ActiveOscillators)
     (.int (activeOscillators v)) (channel ≠ 0) 0)

/-! ## Cart file and bulk dump -/

/-- The flattening both Cart.save_to_file and Cart.send_to_dexed perform
before packing: for each voice, oscillator 6 down to oscillator 1 then the
voice tail. -/
def cartFlattenedBytes (voices : List VoiceRec) : List Nat :=
  voices.flatMap (fun v =>
    v.osc6.data ++ v.osc5.data ++ v.osc4.data ++ v.osc3.data ++
    v.osc2.data ++ v.osc1.data ++ v.data)

/-- The bytes Cart.save_to_file writes (and Cart.send_to_dexed hands to the
transport): fixed header F0 43 00 09 20 00, the 4096 packed bytes, the
twos-complement checksum, F7. -/
def save_to_file_bytes (voices : List VoiceRec) : List Nat :=
  [0xF0, 0x43, 0x00, 0x09, 0x20, 0x00] ++
    convertTo32VoiceDumpFormat (cartFlattenedBytes voices) ++
    [twosComplementChecksum (convertTo32VoiceDumpFormat (cartFlattenedBytes voices)), 0xF7]

/-- The voice Cart.read_from_file builds for slot i from the unpacked data:
Voice(i, data=unpacked[155*i+126 : 155*(i+1)]) whose oscillators 6..1 are
re-built from the 21-byte slices at offsets 155*i, 155*i+21, ..., 155*i+105
(oscillator 6 first). -/
def voiceFromDump (unpacked : List Nat) (i : Nat) : VoiceRec :=
  { number := i
    osc6 := { number := 6, data := pyDataInit 21 ((unpacked.drop (155*i)).take 21), active := true }
    osc5 := { number := 5, data := pyDataInit 21 ((unpacked.drop (155*i + 21)).take 21), active := true }
    osc4 := { number := 4, data := pyDataInit 21 ((unpacked.drop (155*i + 42)).take 21), active := true }
    osc3 := { number := 3, data := pyDataInit 21 ((unpacked.drop (155*i + 63)).take 21), active := true }
    osc2 := { number := 2, data := pyDataInit 21 ((unpacked.drop (155*i + 84)).take 21), active := true }
    osc1 := { number := 1, data := pyDataInit 21 ((unpacked.drop (155*i + 105)).take 21), active := true }
    data := pyDataInit 29 ((unpacked.drop (155*i + 126)).take 29) }

structure CartReadResult where
  checksumWarning : Bool
  voices : List VoiceRec
  deriving DecidableEq

/-- Cart.read_from_file on the bytes of a file: data[:4] must be
F0 43 00 09 and data[4:6] must be 20 00 (else ValueError, fatal); a
checksum byte data[-2] different from the twos-complement checksum of
data[6:-2] only prints a warning; the payload data[6:-2] is unpacked and 32
voices are rebuilt from it. -/
def read_from_file (data : List Nat) : Except String CartReadResult :=
  if data.take 4 ≠ [0xF0, 0x43, 0x00, 0x09] then
    .error "Invalid Dexed cart file format: missing header"
  else if (data.drop 4).take 2 ≠ [0x20, 0x00] then
    .error "Invalid Dexed cart file format: missing header"
  else
    .ok { checksumWarning :=
            decide (data.getD (data.length - 2) 0 ≠
              twosComplementChecksum ((data.take (data.length - 2)).drop 6))
          voices := (List.range 32).map (fun i =>
            voiceFromDump (convertFrom32VoiceDumpFormat
              ((data.take (data.length - 2)).drop 6)) i) }

/-! ## Cart construction (Cart.__init__) -/

/-- The filename argument of Cart.__init__. Its python declared default
value is the annotation expression str | None itself (a types.UnionType
object), not None; an explicit None or an actual path string must be passed
to avoid it. -/
inductive CartFilenameArg where
  | typeUnionDefault
  | pyNone
  | path (s : String)

/-- Cart.__init__ modelled against a file system fs mapping paths to file
bytes: the voice list starts as 32 default voices; when filename is not
None, read_from_file(filename) runs - with the declared default value this
is open(str | None), which raises a TypeError before anything is read;
otherwise an explicit voices list (whose elements are all Voice instances
by typing) replaces the default list. -/
def cartInit (voices : Option (List VoiceRec)) (filename : CartFilenameArg)
    (fs : String → Option (List Nat)) : Except String (List VoiceRec) :=
  match filename with
  | .typeUnionDefault =>
      .error "TypeError: expected str, bytes or os.PathLike object, not UnionType"
  | .path s =>
      match fs s with
      | none => .error "FileNotFoundError"
      | some bytes => (read_from_file bytes).map (fun r => r.voices)
  | .pyNone =>
      match voices with
      | some vs => .ok vs
      | none => .ok ((List.range 32).map defaultVoice)

/-! ## Validity of an unpacked voice payload

The documented ranges of the 155 unpacked bytes of one voice: six 21-byte
oscillator blocks then the 29-byte voice tail (see the named-setter maxima;
name bytes are ASCII, at most 127). -/

/-- Per-byte maxima of the 155-byte unpacked voice layout. -/
def unpackedVoiceMax : List Nat :=
  let osc := [99, 99, 99, 99, 99, 99, 99, 99, 99, 99, 99, 3, 3, 7, 3, 7, 99, 1, 31, 99, 14]
  osc ++ osc ++ osc ++ osc ++ osc ++ osc ++
  ([99, 99, 99, 99, 99, 99, 99, 99, 31, 7, 1, 99, 99, 99, 99, 1, 5, 7, 48] ++
   List.replicate 10 127)

/-- All 155 bytes within their documented ranges. -/
def ValidUnpackedVoice (v : List Nat) : Prop :=
  ∀ i, i < 155 → v.getD i 0 ≤ unpackedVoiceMax.getD i 0

instance (v : List Nat) : Decidable (ValidUnpackedVoice v) :=
  inferInstanceAs (Decidable (∀ i, i < 155 → _))


/-! ## Concrete inputs and derived definitions used by the theorems -/

/-- Decidable equality for Except results, used to evaluate the models on
concrete inputs. -/
instance {e a : Type} [DecidableEq e] [DecidableEq a] : DecidableEq (Except e a) := fun x y =>
  match x, y with
  | .ok u, .ok v =>
    if h : u = v then isTrue (by rw [h]) else isFalse (by simp [h])
  | .error u, .error v =>
    if h : u = v then isTrue (by rw [h]) else isFalse (by simp [h])
  | .ok _, .error _ => isFalse (by simp)
  | .error _, .ok _ => isFalse (by simp)

/-- The bytes Cart.send_to_dexed hands to the transport: the same header,
packed payload, twos-complement checksum and terminator as the file path. -/
def cart_send_to_dexed_message (voices : List VoiceRec) : List Nat :=
  let packed := convertTo32VoiceDumpFormat (cartFlattenedBytes voices)
  [0xF0, 0x43, 0x00, 0x09, 0x20, 0x00] ++ packed ++
    [twosComplementChecksum packed, 0xF7]

/-- The 32 default voices of a fresh in-memory Cart (Cart(filename=None)). -/
def freshCartVoices : List VoiceRec := (List.range 32).map defaultVoice

/-- A valid unpacked voice payload on which the round trip fails: all bytes
zero except Pitch_Mod_Sensitivity (tail offset 17, byte 143) = 4, inside its
documented range 0..7 but beyond the two-bit mask of the packing code. -/
def pmsCounterexampleVoice : List Nat :=
  List.replicate 143 0 ++ [4] ++ List.replicate 11 0

/-- A valid voice payload: oscillator 1 has EG_RATE_1 = 99 and Detune = 14,
the tail has Pitch_Mod_Sensitivity = 3, Transpose = 12 and a name of ten
spaces. -/
def c1WitnessVoice : List Nat :=
  [99] ++ List.replicate 19 0 ++ [14] ++ List.replicate 105 0 ++
  (List.replicate 17 0 ++ [3, 12] ++ List.replicate 10 32)

/-! ## Bit-field helper lemmas

Each packed byte merges two or three bit fields; these lemmas state that the
mask-and-shift extractions used by the unpacking code recover the fields (for
field values that fit the masks), and that re-packing the extracted fields
reconstructs any byte in the image of the packing code. They are proved by
exhausting the (small) bounded ranges. -/

theorem extract_lo2_2 (x y : Nat) (hx : x ≤ 3) :
    ((x &&& 3) + ((y &&& 3) <<< 2)) &&& 3 = x := by
  have hy : y &&& 3 ≤ 3 := Nat.and_le_right
  revert hy; generalize y &&& 3 = t; intro hy
  interval_cases x <;> interval_cases t <;> rfl

theorem extract_hi2_2 (x y : Nat) (hy : y ≤ 3) :
    (((x &&& 3) + ((y &&& 3) <<< 2)) &&& 12) >>> 2 = y := by
  have hx : x &&& 3 ≤ 3 := Nat.and_le_right
  revert hx; generalize x &&& 3 = t; intro hx
  interval_cases t <;> interval_cases y <;> rfl

theorem extract_lo3_d (x y : Nat) (hx : x ≤ 7) :
    ((x &&& 7) + ((y &&& 15) <<< 3)) &&& 7 = x := by
  have hy : y &&& 15 ≤ 15 := Nat.and_le_right
  revert hy; generalize y &&& 15 = t; intro hy
  interval_cases x <;> interval_cases t <;> rfl

theorem extract_hi4_d (x y : Nat) (hy : y ≤ 15) :
    (((x &&& 7) + ((y &&& 15) <<< 3)) &&& 120) >>> 3 = y := by
  have hx : x &&& 7 ≤ 7 := Nat.and_le_right
  revert hx; generalize x &&& 7 = t; intro hx
  interval_cases t <;> interval_cases y <;> rfl

theorem extract_lo2_3 (x y : Nat) (hx : x ≤ 3) :
    ((x &&& 3) + ((y &&& 7) <<< 2)) &&& 3 = x := by
  have hy : y &&& 7 ≤ 7 := Nat.and_le_right
  revert hy; generalize y &&& 7 = t; intro hy
  interval_cases x <;> interval_cases t <;> rfl

theorem extract_hi3_3 (x y : Nat) (hy : y ≤ 7) :
    (((x &&& 3) + ((y &&& 7) <<< 2)) &&& 28) >>> 2 = y := by
  have hx : x &&& 3 ≤ 3 := Nat.and_le_right
  revert hx; generalize x &&& 3 = t; intro hx
  interval_cases t <;> interval_cases y <;> rfl

theorem extract_lo1_5 (x y : Nat) (hx : x ≤ 1) :
    ((x &&& 1) + ((y &&& 31) <<< 1)) &&& 1 = x := by
  have hy : y &&& 31 ≤ 31 := Nat.and_le_right
  revert hy; generalize y &&& 31 = t; intro hy
  interval_cases x <;> interval_cases t <;> rfl

theorem extract_hi5_5 (x y : Nat) (hy : y ≤ 31) :
    (((x &&& 1) + ((y &&& 31) <<< 1)) &&& 62) >>> 1 = y := by
  have hx : x &&& 1 ≤ 1 := Nat.and_le_right
  revert hx; generalize x &&& 1 = t; intro hx
  interval_cases t <;> interval_cases y <;> rfl

theorem extract5 (x : Nat) (hx : x ≤ 31) : (x &&& 31) &&& 31 = x := by
  interval_cases x <;> rfl

theorem extract_lo3_1 (x y : Nat) (hx : x ≤ 7) :
    ((x &&& 7) + ((y &&& 1) <<< 3)) &&& 7 = x := by
  have hy : y &&& 1 ≤ 1 := Nat.and_le_right
  revert hy; generalize y &&& 1 = t; intro hy
  interval_cases x <;> interval_cases t <;> rfl

theorem extract_hi1_1 (x y : Nat) (hy : y ≤ 1) :
    (((x &&& 7) + ((y &&& 1) <<< 3)) &&& 8) >>> 3 = y := by
  have hx : x &&& 7 ≤ 7 := Nat.and_le_right
  revert hx; generalize x &&& 7 = t; intro hx
  interval_cases t <;> interval_cases y <;> rfl

theorem extract_lo1_42 (x y z : Nat) (hx : x ≤ 1) :
    ((x &&& 1) + ((y &&& 15) <<< 1) + ((z &&& 3) <<< 5)) &&& 1 = x := by
  have hy : y &&& 15 ≤ 15 := Nat.and_le_right
  have hz : z &&& 3 ≤ 3 := Nat.and_le_right
  revert hy hz; generalize y &&& 15 = s; generalize z &&& 3 = t; intro hy hz
  interval_cases x <;> interval_cases s <;> interval_cases t <;> rfl

theorem extract_mid4_42 (x y z : Nat) (hy : y ≤ 15) :
    (((x &&& 1) + ((y &&& 15) <<< 1) + ((z &&& 3) <<< 5)) &&& 30) >>> 1 = y := by
  have hx : x &&& 1 ≤ 1 := Nat.and_le_right
  have hz : z &&& 3 ≤ 3 := Nat.and_le_right
  revert hx hz; generalize x &&& 1 = s; generalize z &&& 3 = t; intro hx hz
  interval_cases s <;> interval_cases y <;> interval_cases t <;> rfl

theorem extract_hi2_42 (x y z : Nat) (hz : z ≤ 3) :
    (((x &&& 1) + ((y &&& 15) <<< 1) + ((z &&& 3) <<< 5)) &&& 96) >>> 5 = z := by
  have hx : x &&& 1 ≤ 1 := Nat.and_le_right
  have hy : y &&& 15 ≤ 15 := Nat.and_le_right
  revert hx hy; generalize x &&& 1 = s; generalize y &&& 15 = t; intro hx hy
  interval_cases s <;> interval_cases t <;> interval_cases z <;> rfl

theorem packedByte2_2_le (x y : Nat) : (x &&& 3) + ((y &&& 3) <<< 2) ≤ 15 := by
  have hx : x &&& 3 ≤ 3 := Nat.and_le_right
  have hy : y &&& 3 ≤ 3 := Nat.and_le_right
  revert hx hy; generalize x &&& 3 = s; generalize y &&& 3 = t; intro hx hy
  interval_cases s <;> interval_cases t <;> decide

theorem packedByte3_4_le (x y : Nat) : (x &&& 7) + ((y &&& 15) <<< 3) ≤ 127 := by
  have hx : x &&& 7 ≤ 7 := Nat.and_le_right
  have hy : y &&& 15 ≤ 15 := Nat.and_le_right
  revert hx hy; generalize x &&& 7 = s; generalize y &&& 15 = t; intro hx hy
  interval_cases s <;> interval_cases t <;> decide

theorem packedByte2_3_le (x y : Nat) : (x &&& 3) + ((y &&& 7) <<< 2) ≤ 31 := by
  have hx : x &&& 3 ≤ 3 := Nat.and_le_right
  have hy : y &&& 7 ≤ 7 := Nat.and_le_right
  revert hx hy; generalize x &&& 3 = s; generalize y &&& 7 = t; intro hx hy
  interval_cases s <;> interval_cases t <;> decide

theorem packedByte1_5_le (x y : Nat) : (x &&& 1) + ((y &&& 31) <<< 1) ≤ 63 := by
  have hx : x &&& 1 ≤ 1 := Nat.and_le_right
  have hy : y &&& 31 ≤ 31 := Nat.and_le_right
  revert hx hy; generalize x &&& 1 = s; generalize y &&& 31 = t; intro hx hy
  interval_cases s <;> interval_cases t <;> decide

theorem packedByte3_1_le (x y : Nat) : (x &&& 7) + ((y &&& 1) <<< 3) ≤ 15 := by
  have hx : x &&& 7 ≤ 7 := Nat.and_le_right
  have hy : y &&& 1 ≤ 1 := Nat.and_le_right
  revert hx hy; generalize x &&& 7 = s; generalize y &&& 1 = t; intro hx hy
  interval_cases s <;> interval_cases t <;> decide

theorem packedByte1_4_2_le (x y z : Nat) :
    (x &&& 1) + ((y &&& 15) <<< 1) + ((z &&& 3) <<< 5) ≤ 127 := by
  have hx : x &&& 1 ≤ 1 := Nat.and_le_right
  have hy : y &&& 15 ≤ 15 := Nat.and_le_right
  have hz : z &&& 3 ≤ 3 := Nat.and_le_right
  revert hx hy hz
  generalize x &&& 1 = s; generalize y &&& 15 = t; generalize z &&& 3 = u
  intro hx hy hz
  interval_cases s <;> interval_cases t <;> interval_cases u <;> decide

theorem repack2_2 (p : Nat) (h : p ≤ 15) :
    ((p &&& 3) &&& 3) + ((((p &&& 12) >>> 2) &&& 3) <<< 2) = p := by
  interval_cases p <;> rfl

theorem repack3_4 (p : Nat) (h : p ≤ 127) :
    ((p &&& 7) &&& 7) + ((((p &&& 120) >>> 3) &&& 15) <<< 3) = p := by
  interval_cases p <;> rfl

theorem repack2_3 (p : Nat) (h : p ≤ 31) :
    ((p &&& 3) &&& 3) + ((((p &&& 28) >>> 2) &&& 7) <<< 2) = p := by
  interval_cases p <;> rfl

theorem repack1_5 (p : Nat) (h : p ≤ 63) :
    ((p &&& 1) &&& 1) + ((((p &&& 62) >>> 1) &&& 31) <<< 1) = p := by
  interval_cases p <;> rfl

theorem repack3_1 (p : Nat) (h : p ≤ 15) :
    ((p &&& 7) &&& 7) + ((((p &&& 8) >>> 3) &&& 1) <<< 3) = p := by
  interval_cases p <;> rfl

theorem repack1_4_2 (p : Nat) (h : p ≤ 127) :
    ((p &&& 1) &&& 1) + ((((p &&& 30) >>> 1) &&& 15) <<< 1) +
      ((((p &&& 96) >>> 5) &&& 3) <<< 5) = p := by
  interval_cases p <;> rfl

/-! ## Component round trips of the codec -/

set_option maxHeartbeats 1000000 in
/-- Unpacking a packed 21-byte oscillator block restores it when the
bit-merged fields fit their masks. -/
theorem unpackOsc_packOsc (l : List Nat) (hlen : l.length = 21)
    (h11 : l.getD 11 0 ≤ 3) (h12 : l.getD 12 0 ≤ 3) (h13 : l.getD 13 0 ≤ 7)
    (h14 : l.getD 14 0 ≤ 3) (h15 : l.getD 15 0 ≤ 7) (h17 : l.getD 17 0 ≤ 1)
    (h18 : l.getD 18 0 ≤ 31) (h20 : l.getD 20 0 ≤ 15) :
    unpackOscBytes (packOscBytes l) = l := by
  obtain ⟨a0, l, rfl⟩ := List.exists_of_length_succ l hlen
  replace hlen : l.length = 20 := by simp at hlen; omega
  obtain ⟨a1, l, rfl⟩ := List.exists_of_length_succ l hlen
  replace hlen : l.length = 19 := by simp at hlen; omega
  obtain ⟨a2, l, rfl⟩ := List.exists_of_length_succ l hlen
  replace hlen : l.length = 18 := by simp at hlen; omega
  obtain ⟨a3, l, rfl⟩ := List.exists_of_length_succ l hlen
  replace hlen : l.length = 17 := by simp at hlen; omega
  obtain ⟨a4, l, rfl⟩ := List.exists_of_length_succ l hlen
  replace hlen : l.length = 16 := by simp at hlen; omega
  obtain ⟨a5, l, rfl⟩ := List.exists_of_length_succ l hlen
  replace hlen : l.length = 15 := by simp at hlen; omega
  obtain ⟨a6, l, rfl⟩ := List.exists_of_length_succ l hlen
  replace hlen : l.length = 14 := by simp at hlen; omega
  obtain ⟨a7, l, rfl⟩ := List.exists_of_length_succ l hlen
  replace hlen : l.length = 13 := by simp at hlen; omega
  obtain ⟨a8, l, rfl⟩ := List.exists_of_length_succ l hlen
  replace hlen : l.length = 12 := by simp at hlen; omega
  obtain ⟨a9, l, rfl⟩ := List.exists_of_length_succ l hlen
  replace hlen : l.length = 11 := by simp at hlen; omega
  obtain ⟨a10, l, rfl⟩ := List.exists_of_length_succ l hlen
  replace hlen : l.length = 10 := by simp at hlen; omega
  obtain ⟨a11, l, rfl⟩ := List.exists_of_length_succ l hlen
  replace hlen : l.length = 9 := by simp at hlen; omega
  obtain ⟨a12, l, rfl⟩ := List.exists_of_length_succ l hlen
  replace hlen : l.length = 8 := by simp at hlen; omega
  obtain ⟨a13, l, rfl⟩ := List.exists_of_length_succ l hlen
  replace hlen : l.length = 7 := by simp at hlen; omega
  obtain ⟨a14, l, rfl⟩ := List.exists_of_length_succ l hlen
  replace hlen : l.length = 6 := by simp at hlen; omega
  obtain ⟨a15, l, rfl⟩ := List.exists_of_length_succ l hlen
  replace hlen : l.length = 5 := by simp at hlen; omega
  obtain ⟨a16, l, rfl⟩ := List.exists_of_length_succ l hlen
  replace hlen : l.length = 4 := by simp at hlen; omega
  obtain ⟨a17, l, rfl⟩ := List.exists_of_length_succ l hlen
  replace hlen : l.length = 3 := by simp at hlen; omega
  obtain ⟨a18, l, rfl⟩ := List.exists_of_length_succ l hlen
  replace hlen : l.length = 2 := by simp at hlen; omega
  obtain ⟨a19, l, rfl⟩ := List.exists_of_length_succ l hlen
  replace hlen : l.length = 1 := by simp at hlen; omega
  obtain ⟨a20, l, rfl⟩ := List.exists_of_length_succ l hlen
  replace hlen : l = [] := by simpa using hlen
  subst hlen
  have hb11 : a11 ≤ 3 := h11
  have hb12 : a12 ≤ 3 := h12
  have hb13 : a13 ≤ 7 := h13
  have hb14 : a14 ≤ 3 := h14
  have hb15 : a15 ≤ 7 := h15
  have hb17 : a17 ≤ 1 := h17
  have hb18 : a18 ≤ 31 := h18
  have hb20 : a20 ≤ 15 := h20
  have hpack : packOscBytes [a0,
      a1,
      a2,
      a3,
      a4,
      a5,
      a6,
      a7,
      a8,
      a9,
      a10,
      a11,
      a12,
      a13,
      a14,
      a15,
      a16,
      a17,
      a18,
      a19,
      a20] =
      [a0,
       a1,
       a2,
       a3,
       a4,
       a5,
       a6,
       a7,
       a8,
       a9,
       a10,
       ((a11) &&& 3) + (((a12) &&& 3) <<< 2),
       ((a13) &&& 7) + (((a20) &&& 15) <<< 3),
       ((a14) &&& 3) + (((a15) &&& 7) <<< 2),
       a16,
       ((a17) &&& 1) + (((a18) &&& 31) <<< 1),
       a19] := rfl
  have hup : unpackOscBytes [a0,
      a1,
      a2,
      a3,
      a4,
      a5,
      a6,
      a7,
      a8,
      a9,
      a10,
      ((a11) &&& 3) + (((a12) &&& 3) <<< 2),
      ((a13) &&& 7) + (((a20) &&& 15) <<< 3),
      ((a14) &&& 3) + (((a15) &&& 7) <<< 2),
      a16,
      ((a17) &&& 1) + (((a18) &&& 31) <<< 1),
      a19] =
      [a0,
       a1,
       a2,
       a3,
       a4,
       a5,
       a6,
       a7,
       a8,
       a9,
       a10,
       (((a11) &&& 3) + (((a12) &&& 3) <<< 2)) &&& 3,
       ((((a11) &&& 3) + (((a12) &&& 3) <<< 2)) &&& 12) >>> 2,
       (((a13) &&& 7) + (((a20) &&& 15) <<< 3)) &&& 7,
       (((a14) &&& 3) + (((a15) &&& 7) <<< 2)) &&& 3,
       ((((a14) &&& 3) + (((a15) &&& 7) <<< 2)) &&& 28) >>> 2,
       a16,
       (((a17) &&& 1) + (((a18) &&& 31) <<< 1)) &&& 1,
       ((((a17) &&& 1) + (((a18) &&& 31) <<< 1)) &&& 62) >>> 1,
       a19,
       ((((a13) &&& 7) + (((a20) &&& 15) <<< 3)) &&& 120) >>> 3] := rfl
  rw [hpack, hup,
      extract_lo2_2 a11 a12 hb11,
      extract_hi2_2 a11 a12 hb12,
      extract_lo3_d a13 a20 hb13,
      extract_hi4_d a13 a20 hb20,
      extract_lo2_3 a14 a15 hb14,
      extract_hi3_3 a14 a15 hb15,
      extract_lo1_5 a17 a18 hb17,
      extract_hi5_5 a17 a18 hb18]

set_option maxHeartbeats 1000000 in
/-- Packing an unpacked oscillator block reconstructs any packed block
that came from the packing code. -/
theorem packOsc_roundtrip (l : List Nat) (hlen : l.length = 21) :
    packOscBytes (unpackOscBytes (packOscBytes l)) = packOscBytes l := by
  obtain ⟨a0, l, rfl⟩ := List.exists_of_length_succ l hlen
  replace hlen : l.length = 20 := by simp at hlen; omega
  obtain ⟨a1, l, rfl⟩ := List.exists_of_length_succ l hlen
  replace hlen : l.length = 19 := by simp at hlen; omega
  obtain ⟨a2, l, rfl⟩ := List.exists_of_length_succ l hlen
  replace hlen : l.length = 18 := by simp at hlen; omega
  obtain ⟨a3, l, rfl⟩ := List.exists_of_length_succ l hlen
  replace hlen : l.length = 17 := by simp at hlen; omega
  obtain ⟨a4, l, rfl⟩ := List.exists_of_length_succ l hlen
  replace hlen : l.length = 16 := by simp at hlen; omega
  obtain ⟨a5, l, rfl⟩ := List.exists_of_length_succ l hlen
  replace hlen : l.length = 15 := by simp at hlen; omega
  obtain ⟨a6, l, rfl⟩ := List.exists_of_length_succ l hlen
  replace hlen : l.length = 14 := by simp at hlen; omega
  obtain ⟨a7, l, rfl⟩ := List.exists_of_length_succ l hlen
  replace hlen : l.length = 13 := by simp at hlen; omega
  obtain ⟨a8, l, rfl⟩ := List.exists_of_length_succ l hlen
  replace hlen : l.length = 12 := by simp at hlen; omega
  obtain ⟨a9, l, rfl⟩ := List.exists_of_length_succ l hlen
  replace hlen : l.length = 11 := by simp at hlen; omega
  obtain ⟨a10, l, rfl⟩ := List.exists_of_length_succ l hlen
  replace hlen : l.length = 10 := by simp at hlen; omega
  obtain ⟨a11, l, rfl⟩ := List.exists_of_length_succ l hlen
  replace hlen : l.length = 9 := by simp at hlen; omega
  obtain ⟨a12, l, rfl⟩ := List.exists_of_length_succ l hlen
  replace hlen : l.length = 8 := by simp at hlen; omega
  obtain ⟨a13, l, rfl⟩ := List.exists_of_length_succ l hlen
  replace hlen : l.length = 7 := by simp at hlen; omega
  obtain ⟨a14, l, rfl⟩ := List.exists_of_length_succ l hlen
  replace hlen : l.length = 6 := by simp at hlen; omega
  obtain ⟨a15, l, rfl⟩ := List.exists_of_length_succ l hlen
  replace hlen : l.length = 5 := by simp at hlen; omega
  obtain ⟨a16, l, rfl⟩ := List.exists_of_length_succ l hlen
  replace hlen : l.length = 4 := by simp at hlen; omega
  obtain ⟨a17, l, rfl⟩ := List.exists_of_length_succ l hlen
  replace hlen : l.length = 3 := by simp at hlen; omega
  obtain ⟨a18, l, rfl⟩ := List.exists_of_length_succ l hlen
  replace hlen : l.length = 2 := by simp at hlen; omega
  obtain ⟨a19, l, rfl⟩ := List.exists_of_length_succ l hlen
  replace hlen : l.length = 1 := by simp at hlen; omega
  obtain ⟨a20, l, rfl⟩ := List.exists_of_length_succ l hlen
  replace hlen : l = [] := by simpa using hlen
  subst hlen
  have hpack : packOscBytes [a0,
      a1,
      a2,
      a3,
      a4,
      a5,
      a6,
      a7,
      a8,
      a9,
      a10,
      a11,
      a12,
      a13,
      a14,
      a15,
      a16,
      a17,
      a18,
      a19,
      a20] =
      [a0,
       a1,
       a2,
       a3,
       a4,
       a5,
       a6,
       a7,
       a8,
       a9,
       a10,
       ((a11) &&& 3) + (((a12) &&& 3) <<< 2),
       ((a13) &&& 7) + (((a20) &&& 15) <<< 3),
       ((a14) &&& 3) + (((a15) &&& 7) <<< 2),
       a16,
       ((a17) &&& 1) + (((a18) &&& 31) <<< 1),
       a19] := rfl
  have hup : unpackOscBytes [a0,
      a1,
      a2,
      a3,
      a4,
      a5,
      a6,
      a7,
      a8,
      a9,
      a10,
      ((a11) &&& 3) + (((a12) &&& 3) <<< 2),
      ((a13) &&& 7) + (((a20) &&& 15) <<< 3),
      ((a14) &&& 3) + (((a15) &&& 7) <<< 2),
      a16,
      ((a17) &&& 1) + (((a18) &&& 31) <<< 1),
      a19] =
      [a0,
       a1,
       a2,
       a3,
       a4,
       a5,
       a6,
       a7,
       a8,
       a9,
       a10,
       (((a11) &&& 3) + (((a12) &&& 3) <<< 2)) &&& 3,
       ((((a11) &&& 3) + (((a12) &&& 3) <<< 2)) &&& 12) >>> 2,
       (((a13) &&& 7) + (((a20) &&& 15) <<< 3)) &&& 7,
       (((a14) &&& 3) + (((a15) &&& 7) <<< 2)) &&& 3,
       ((((a14) &&& 3) + (((a15) &&& 7) <<< 2)) &&& 28) >>> 2,
       a16,
       (((a17) &&& 1) + (((a18) &&& 31) <<< 1)) &&& 1,
       ((((a17) &&& 1) + (((a18) &&& 31) <<< 1)) &&& 62) >>> 1,
       a19,
       ((((a13) &&& 7) + (((a20) &&& 15) <<< 3)) &&& 120) >>> 3] := rfl
  have hrepack : packOscBytes [a0,
      a1,
      a2,
      a3,
      a4,
      a5,
      a6,
      a7,
      a8,
      a9,
      a10,
      (((a11) &&& 3) + (((a12) &&& 3) <<< 2)) &&& 3,
      ((((a11) &&& 3) + (((a12) &&& 3) <<< 2)) &&& 12) >>> 2,
      (((a13) &&& 7) + (((a20) &&& 15) <<< 3)) &&& 7,
      (((a14) &&& 3) + (((a15) &&& 7) <<< 2)) &&& 3,
      ((((a14) &&& 3) + (((a15) &&& 7) <<< 2)) &&& 28) >>> 2,
      a16,
      (((a17) &&& 1) + (((a18) &&& 31) <<< 1)) &&& 1,
      ((((a17) &&& 1) + (((a18) &&& 31) <<< 1)) &&& 62) >>> 1,
      a19,
      ((((a13) &&& 7) + (((a20) &&& 15) <<< 3)) &&& 120) >>> 3] =
      [a0,
       a1,
       a2,
       a3,
       a4,
       a5,
       a6,
       a7,
       a8,
       a9,
       a10,
       (((((a11) &&& 3) + (((a12) &&& 3) <<< 2)) &&& 3) &&& 3) + (((((((a11) &&& 3) + (((a12) &&& 3) <<< 2)) &&& 12) >>> 2) &&& 3) <<< 2),
       (((((a13) &&& 7) + (((a20) &&& 15) <<< 3)) &&& 7) &&& 7) + (((((((a13) &&& 7) + (((a20) &&& 15) <<< 3)) &&& 120) >>> 3) &&& 15) <<< 3),
       (((((a14) &&& 3) + (((a15) &&& 7) <<< 2)) &&& 3) &&& 3) + (((((((a14) &&& 3) + (((a15) &&& 7) <<< 2)) &&& 28) >>> 2) &&& 7) <<< 2),
       a16,
       (((((a17) &&& 1) + (((a18) &&& 31) <<< 1)) &&& 1) &&& 1) + (((((((a17) &&& 1) + (((a18) &&& 31) <<< 1)) &&& 62) >>> 1) &&& 31) <<< 1),
       a19] := rfl
  rw [hpack, hup, hrepack,
      repack2_2 (((a11) &&& 3) + (((a12) &&& 3) <<< 2)) (packedByte2_2_le a11 a12),
      repack3_4 (((a13) &&& 7) + (((a20) &&& 15) <<< 3)) (packedByte3_4_le a13 a20),
      repack2_3 (((a14) &&& 3) + (((a15) &&& 7) <<< 2)) (packedByte2_3_le a14 a15),
      repack1_5 (((a17) &&& 1) + (((a18) &&& 31) <<< 1)) (packedByte1_5_le a17 a18)]

set_option maxHeartbeats 1000000 in
/-- Unpacking a packed 26-byte voice tail restores it when the
bit-merged fields fit their masks. -/
theorem unpackTail_packTail (l : List Nat) (hlen : l.length = 29)
    (h8 : l.getD 8 0 ≤ 31) (h9 : l.getD 9 0 ≤ 7) (h10 : l.getD 10 0 ≤ 1)
    (h15 : l.getD 15 0 ≤ 1) (h16 : l.getD 16 0 ≤ 15) (h17 : l.getD 17 0 ≤ 3) :
    unpackVoiceTail (packVoiceTail l) = l := by
  obtain ⟨b0, l, rfl⟩ := List.exists_of_length_succ l hlen
  replace hlen : l.length = 28 := by simp at hlen; omega
  obtain ⟨b1, l, rfl⟩ := List.exists_of_length_succ l hlen
  replace hlen : l.length = 27 := by simp at hlen; omega
  obtain ⟨b2, l, rfl⟩ := List.exists_of_length_succ l hlen
  replace hlen : l.length = 26 := by simp at hlen; omega
  obtain ⟨b3, l, rfl⟩ := List.exists_of_length_succ l hlen
  replace hlen : l.length = 25 := by simp at hlen; omega
  obtain ⟨b4, l, rfl⟩ := List.exists_of_length_succ l hlen
  replace hlen : l.length = 24 := by simp at hlen; omega
  obtain ⟨b5, l, rfl⟩ := List.exists_of_length_succ l hlen
  replace hlen : l.length = 23 := by simp at hlen; omega
  obtain ⟨b6, l, rfl⟩ := List.exists_of_length_succ l hlen
  replace hlen : l.length = 22 := by simp at hlen; omega
  obtain ⟨b7, l, rfl⟩ := List.exists_of_length_succ l hlen
  replace hlen : l.length = 21 := by simp at hlen; omega
  obtain ⟨b8, l, rfl⟩ := List.exists_of_length_succ l hlen
  replace hlen : l.length = 20 := by simp at hlen; omega
  obtain ⟨b9, l, rfl⟩ := List.exists_of_length_succ l hlen
  replace hlen : l.length = 19 := by simp at hlen; omega
  obtain ⟨b10, l, rfl⟩ := List.exists_of_length_succ l hlen
  replace hlen : l.length = 18 := by simp at hlen; omega
  obtain ⟨b11, l, rfl⟩ := List.exists_of_length_succ l hlen
  replace hlen : l.length = 17 := by simp at hlen; omega
  obtain ⟨b12, l, rfl⟩ := List.exists_of_length_succ l hlen
  replace hlen : l.length = 16 := by simp at hlen; omega
  obtain ⟨b13, l, rfl⟩ := List.exists_of_length_succ l hlen
  replace hlen : l.length = 15 := by simp at hlen; omega
  obtain ⟨b14, l, rfl⟩ := List.exists_of_length_succ l hlen
  replace hlen : l.length = 14 := by simp at hlen; omega
  obtain ⟨b15, l, rfl⟩ := List.exists_of_length_succ l hlen
  replace hlen : l.length = 13 := by simp at hlen; omega
  obtain ⟨b16, l, rfl⟩ := List.exists_of_length_succ l hlen
  replace hlen : l.length = 12 := by simp at hlen; omega
  obtain ⟨b17, l, rfl⟩ := List.exists_of_length_succ l hlen
  replace hlen : l.length = 11 := by simp at hlen; omega
  obtain ⟨b18, l, rfl⟩ := List.exists_of_length_succ l hlen
  replace hlen : l.length = 10 := by simp at hlen; omega
  obtain ⟨b19, l, rfl⟩ := List.exists_of_length_succ l hlen
  replace hlen : l.length = 9 := by simp at hlen; omega
  obtain ⟨b20, l, rfl⟩ := List.exists_of_length_succ l hlen
  replace hlen : l.length = 8 := by simp at hlen; omega
  obtain ⟨b21, l, rfl⟩ := List.exists_of_length_succ l hlen
  replace hlen : l.length = 7 := by simp at hlen; omega
  obtain ⟨b22, l, rfl⟩ := List.exists_of_length_succ l hlen
  replace hlen : l.length = 6 := by simp at hlen; omega
  obtain ⟨b23, l, rfl⟩ := List.exists_of_length_succ l hlen
  replace hlen : l.length = 5 := by simp at hlen; omega
  obtain ⟨b24, l, rfl⟩ := List.exists_of_length_succ l hlen
  replace hlen : l.length = 4 := by simp at hlen; omega
  obtain ⟨b25, l, rfl⟩ := List.exists_of_length_succ l hlen
  replace hlen : l.length = 3 := by simp at hlen; omega
  obtain ⟨b26, l, rfl⟩ := List.exists_of_length_succ l hlen
  replace hlen : l.length = 2 := by simp at hlen; omega
  obtain ⟨b27, l, rfl⟩ := List.exists_of_length_succ l hlen
  replace hlen : l.length = 1 := by simp at hlen; omega
  obtain ⟨b28, l, rfl⟩ := List.exists_of_length_succ l hlen
  replace hlen : l = [] := by simpa using hlen
  subst hlen
  have hb8 : b8 ≤ 31 := h8
  have hb9 : b9 ≤ 7 := h9
  have hb10 : b10 ≤ 1 := h10
  have hb15 : b15 ≤ 1 := h15
  have hb16 : b16 ≤ 15 := h16
  have hb17 : b17 ≤ 3 := h17
  have hpack : packVoiceTail [b0,
      b1,
      b2,
      b3,
      b4,
      b5,
      b6,
      b7,
      b8,
      b9,
      b10,
      b11,
      b12,
      b13,
      b14,
      b15,
      b16,
      b17,
      b18,
      b19,
      b20,
      b21,
      b22,
      b23,
      b24,
      b25,
      b26,
      b27,
      b28] =
      [b0,
       b1,
       b2,
       b3,
       b4,
       b5,
       b6,
       b7,
       (b8) &&& 31,
       ((b9) &&& 7) + (((b10) &&& 1) <<< 3),
       b11,
       b12,
       b13,
       b14,
       ((b15) &&& 1) + (((b16) &&& 15) <<< 1) + (((b17) &&& 3) <<< 5),
       b18,
       b19,
       b20,
       b21,
       b22,
       b23,
       b24,
       b25,
       b26,
       b27,
       b28] := rfl
  have hup : unpackVoiceTail [b0,
      b1,
      b2,
      b3,
      b4,
      b5,
      b6,
      b7,
      (b8) &&& 31,
      ((b9) &&& 7) + (((b10) &&& 1) <<< 3),
      b11,
      b12,
      b13,
      b14,
      ((b15) &&& 1) + (((b16) &&& 15) <<< 1) + (((b17) &&& 3) <<< 5),
      b18,
      b19,
      b20,
      b21,
      b22,
      b23,
      b24,
      b25,
      b26,
      b27,
      b28] =
      [b0,
       b1,
       b2,
       b3,
       b4,
       b5,
       b6,
       b7,
       ((b8) &&& 31) &&& 31,
       (((b9) &&& 7) + (((b10) &&& 1) <<< 3)) &&& 7,
       ((((b9) &&& 7) + (((b10) &&& 1) <<< 3)) &&& 8) >>> 3,
       b11,
       b12,
       b13,
       b14,
       (((b15) &&& 1) + (((b16) &&& 15) <<< 1) + (((b17) &&& 3) <<< 5)) &&& 1,
       ((((b15) &&& 1) + (((b16) &&& 15) <<< 1) + (((b17) &&& 3) <<< 5)) &&& 30) >>> 1,
       ((((b15) &&& 1) + (((b16) &&& 15) <<< 1) + (((b17) &&& 3) <<< 5)) &&& 96) >>> 5,
       b18,
       b19,
       b20,
       b21,
       b22,
       b23,
       b24,
       b25,
       b26,
       b27,
       b28] := rfl
  rw [hpack, hup,
      extract5 b8 hb8,
      extract_lo3_1 b9 b10 hb9,
      extract_hi1_1 b9 b10 hb10,
      extract_lo1_42 b15 b16 b17 hb15,
      extract_mid4_42 b15 b16 b17 hb16,
      extract_hi2_42 b15 b16 b17 hb17]

set_option maxHeartbeats 1000000 in
/-- Packing an unpacked voice tail reconstructs any packed tail that
came from the packing code. -/
theorem packTail_roundtrip (l : List Nat) (hlen : l.length = 29) :
    packVoiceTail (unpackVoiceTail (packVoiceTail l)) = packVoiceTail l := by
  obtain ⟨b0, l, rfl⟩ := List.exists_of_length_succ l hlen
  replace hlen : l.length = 28 := by simp at hlen; omega
  obtain ⟨b1, l, rfl⟩ := List.exists_of_length_succ l hlen
  replace hlen : l.length = 27 := by simp at hlen; omega
  obtain ⟨b2, l, rfl⟩ := List.exists_of_length_succ l hlen
  replace hlen : l.length = 26 := by simp at hlen; omega
  obtain ⟨b3, l, rfl⟩ := List.exists_of_length_succ l hlen
  replace hlen : l.length = 25 := by simp at hlen; omega
  obtain ⟨b4, l, rfl⟩ := List.exists_of_length_succ l hlen
  replace hlen : l.length = 24 := by simp at hlen; omega
  obtain ⟨b5, l, rfl⟩ := List.exists_of_length_succ l hlen
  replace hlen : l.length = 23 := by simp at hlen; omega
  obtain ⟨b6, l, rfl⟩ := List.exists_of_length_succ l hlen
  replace hlen : l.length = 22 := by simp at hlen; omega
  obtain ⟨b7, l, rfl⟩ := List.exists_of_length_succ l hlen
  replace hlen : l.length = 21 := by simp at hlen; omega
  obtain ⟨b8, l, rfl⟩ := List.exists_of_length_succ l hlen
  replace hlen : l.length = 20 := by simp at hlen; omega
  obtain ⟨b9, l, rfl⟩ := List.exists_of_length_succ l hlen
  replace hlen : l.length = 19 := by simp at hlen; omega
  obtain ⟨b10, l, rfl⟩ := List.exists_of_length_succ l hlen
  replace hlen : l.length = 18 := by simp at hlen; omega
  obtain ⟨b11, l, rfl⟩ := List.exists_of_length_succ l hlen
  replace hlen : l.length = 17 := by simp at hlen; omega
  obtain ⟨b12, l, rfl⟩ := List.exists_of_length_succ l hlen
  replace hlen : l.length = 16 := by simp at hlen; omega
  obtain ⟨b13, l, rfl⟩ := List.exists_of_length_succ l hlen
  replace hlen : l.length = 15 := by simp at hlen; omega
  obtain ⟨b14, l, rfl⟩ := List.exists_of_length_succ l hlen
  replace hlen : l.length = 14 := by simp at hlen; omega
  obtain ⟨b15, l, rfl⟩ := List.exists_of_length_succ l hlen
  replace hlen : l.length = 13 := by simp at hlen; omega
  obtain ⟨b16, l, rfl⟩ := List.exists_of_length_succ l hlen
  replace hlen : l.length = 12 := by simp at hlen; omega
  obtain ⟨b17, l, rfl⟩ := List.exists_of_length_succ l hlen
  replace hlen : l.length = 11 := by simp at hlen; omega
  obtain ⟨b18, l, rfl⟩ := List.exists_of_length_succ l hlen
  replace hlen : l.length = 10 := by simp at hlen; omega
  obtain ⟨b19, l, rfl⟩ := List.exists_of_length_succ l hlen
  replace hlen : l.length = 9 := by simp at hlen; omega
  obtain ⟨b20, l, rfl⟩ := List.exists_of_length_succ l hlen
  replace hlen : l.length = 8 := by simp at hlen; omega
  obtain ⟨b21, l, rfl⟩ := List.exists_of_length_succ l hlen
  replace hlen : l.length = 7 := by simp at hlen; omega
  obtain ⟨b22, l, rfl⟩ := List.exists_of_length_succ l hlen
  replace hlen : l.length = 6 := by simp at hlen; omega
  obtain ⟨b23, l, rfl⟩ := List.exists_of_length_succ l hlen
  replace hlen : l.length = 5 := by simp at hlen; omega
  obtain ⟨b24, l, rfl⟩ := List.exists_of_length_succ l hlen
  replace hlen : l.length = 4 := by simp at hlen; omega
  obtain ⟨b25, l, rfl⟩ := List.exists_of_length_succ l hlen
  replace hlen : l.length = 3 := by simp at hlen; omega
  obtain ⟨b26, l, rfl⟩ := List.exists_of_length_succ l hlen
  replace hlen : l.length = 2 := by simp at hlen; omega
  obtain ⟨b27, l, rfl⟩ := List.exists_of_length_succ l hlen
  replace hlen : l.length = 1 := by simp at hlen; omega
  obtain ⟨b28, l, rfl⟩ := List.exists_of_length_succ l hlen
  replace hlen : l = [] := by simpa using hlen
  subst hlen
  have hpack : packVoiceTail [b0,
      b1,
      b2,
      b3,
      b4,
      b5,
      b6,
      b7,
      b8,
      b9,
      b10,
      b11,
      b12,
      b13,
      b14,
      b15,
      b16,
      b17,
      b18,
      b19,
      b20,
      b21,
      b22,
      b23,
      b24,
      b25,
      b26,
      b27,
      b28] =
      [b0,
       b1,
       b2,
       b3,
       b4,
       b5,
       b6,
       b7,
       (b8) &&& 31,
       ((b9) &&& 7) + (((b10) &&& 1) <<< 3),
       b11,
       b12,
       b13,
       b14,
       ((b15) &&& 1) + (((b16) &&& 15) <<< 1) + (((b17) &&& 3) <<< 5),
       b18,
       b19,
       b20,
       b21,
       b22,
       b23,
       b24,
       b25,
       b26,
       b27,
       b28] := rfl
  have hup : unpackVoiceTail [b0,
      b1,
      b2,
      b3,
      b4,
      b5,
      b6,
      b7,
      (b8) &&& 31,
      ((b9) &&& 7) + (((b10) &&& 1) <<< 3),
      b11,
      b12,
      b13,
      b14,
      ((b15) &&& 1) + (((b16) &&& 15) <<< 1) + (((b17) &&& 3) <<< 5),
      b18,
      b19,
      b20,
      b21,
      b22,
      b23,
      b24,
      b25,
      b26,
      b27,
      b28] =
      [b0,
       b1,
       b2,
       b3,
       b4,
       b5,
       b6,
       b7,
       ((b8) &&& 31) &&& 31,
       (((b9) &&& 7) + (((b10) &&& 1) <<< 3)) &&& 7,
       ((((b9) &&& 7) + (((b10) &&& 1) <<< 3)) &&& 8) >>> 3,
       b11,
       b12,
       b13,
       b14,
       (((b15) &&& 1) + (((b16) &&& 15) <<< 1) + (((b17) &&& 3) <<< 5)) &&& 1,
       ((((b15) &&& 1) + (((b16) &&& 15) <<< 1) + (((b17) &&& 3) <<< 5)) &&& 30) >>> 1,
       ((((b15) &&& 1) + (((b16) &&& 15) <<< 1) + (((b17) &&& 3) <<< 5)) &&& 96) >>> 5,
       b18,
       b19,
       b20,
       b21,
       b22,
       b23,
       b24,
       b25,
       b26,
       b27,
       b28] := rfl
  have hrepack : packVoiceTail [b0,
      b1,
      b2,
      b3,
      b4,
      b5,
      b6,
      b7,
      ((b8) &&& 31) &&& 31,
      (((b9) &&& 7) + (((b10) &&& 1) <<< 3)) &&& 7,
      ((((b9) &&& 7) + (((b10) &&& 1) <<< 3)) &&& 8) >>> 3,
      b11,
      b12,
      b13,
      b14,
      (((b15) &&& 1) + (((b16) &&& 15) <<< 1) + (((b17) &&& 3) <<< 5)) &&& 1,
      ((((b15) &&& 1) + (((b16) &&& 15) <<< 1) + (((b17) &&& 3) <<< 5)) &&& 30) >>> 1,
      ((((b15) &&& 1) + (((b16) &&& 15) <<< 1) + (((b17) &&& 3) <<< 5)) &&& 96) >>> 5,
      b18,
      b19,
      b20,
      b21,
      b22,
      b23,
      b24,
      b25,
      b26,
      b27,
      b28] =
      [b0,
       b1,
       b2,
       b3,
       b4,
       b5,
       b6,
       b7,
       (((b8) &&& 31) &&& 31) &&& 31,
       (((((b9) &&& 7) + (((b10) &&& 1) <<< 3)) &&& 7) &&& 7) + (((((((b9) &&& 7) + (((b10) &&& 1) <<< 3)) &&& 8) >>> 3) &&& 1) <<< 3),
       b11,
       b12,
       b13,
       b14,
       (((((b15) &&& 1) + (((b16) &&& 15) <<< 1) + (((b17) &&& 3) <<< 5)) &&& 1) &&& 1) + (((((((b15) &&& 1) + (((b16) &&& 15) <<< 1) + (((b17) &&& 3) <<< 5)) &&& 30) >>> 1) &&& 15) <<< 1) + (((((((b15) &&& 1) + (((b16) &&& 15) <<< 1) + (((b17) &&& 3) <<< 5)) &&& 96) >>> 5) &&& 3) <<< 5),
       b18,
       b19,
       b20,
       b21,
       b22,
       b23,
       b24,
       b25,
       b26,
       b27,
       b28] := rfl
  rw [hpack, hup, hrepack,
      extract5 ((b8) &&& 31) Nat.and_le_right,
      repack3_1 (((b9) &&& 7) + (((b10) &&& 1) <<< 3)) (packedByte3_1_le b9 b10),
      repack1_4_2 (((b15) &&& 1) + (((b16) &&& 15) <<< 1) + (((b17) &&& 3) <<< 5)) (packedByte1_4_2_le b15 b16 b17)]

/-! ## Assembly of the voice-level round trip -/

theorem packOscBytes_length (l : List Nat) (h : l.length = 21) :
    (packOscBytes l).length = 17 := by
  simp [packOscBytes, h]

theorem packVoiceTail_length (l : List Nat) (h : l.length = 29) :
    (packVoiceTail l).length = 26 := by
  simp [packVoiceTail, h]

theorem unpackOscBytes_length (l : List Nat) (h : l.length = 17) :
    (unpackOscBytes l).length = 21 := by
  simp [unpackOscBytes, h]

theorem unpackVoiceTail_length (l : List Nat) (h : l.length = 26) :
    (unpackVoiceTail l).length = 29 := by
  simp [unpackVoiceTail, h]

theorem packVoice_eq (v : List Nat) :
    packVoice v =
      packOscBytes (v.take 21) ++ (packOscBytes ((v.drop 21).take 21) ++
      (packOscBytes ((v.drop 42).take 21) ++ (packOscBytes ((v.drop 63).take 21) ++
      (packOscBytes ((v.drop 84).take 21) ++ (packOscBytes ((v.drop 105).take 21) ++
      packVoiceTail ((v.drop 126).take 29)))))) := by
  unfold packVoice
  rw [show List.range 6 = [0, 1, 2, 3, 4, 5] from rfl]
  simp [List.flatMap_cons, List.flatMap_nil, List.append_assoc]

theorem unpackVoice_eq (w : List Nat) :
    unpackVoice w =
      unpackOscBytes (w.take 17) ++ (unpackOscBytes ((w.drop 17).take 17) ++
      (unpackOscBytes ((w.drop 34).take 17) ++ (unpackOscBytes ((w.drop 51).take 17) ++
      (unpackOscBytes ((w.drop 68).take 17) ++ (unpackOscBytes ((w.drop 85).take 17) ++
      unpackVoiceTail ((w.drop 102).take 26)))))) := by
  unfold unpackVoice
  rw [show List.range 6 = [0, 1, 2, 3, 4, 5] from rfl]
  simp [List.flatMap_cons, List.flatMap_nil, List.append_assoc]

theorem unpackVoice_concat (A0 A1 A2 A3 A4 A5 T : List Nat)
    (h0 : A0.length = 17) (h1 : A1.length = 17) (h2 : A2.length = 17)
    (h3 : A3.length = 17) (h4 : A4.length = 17) (h5 : A5.length = 17)
    (hT : T.length = 26) :
    unpackVoice (A0 ++ (A1 ++ (A2 ++ (A3 ++ (A4 ++ (A5 ++ T)))))) =
      unpackOscBytes A0 ++ (unpackOscBytes A1 ++ (unpackOscBytes A2 ++
      (unpackOscBytes A3 ++ (unpackOscBytes A4 ++ (unpackOscBytes A5 ++
      unpackVoiceTail T))))) := by
  rw [unpackVoice_eq]
  have d17 : (A0 ++ (A1 ++ (A2 ++ (A3 ++ (A4 ++ (A5 ++ T)))))).drop 17 =
      A1 ++ (A2 ++ (A3 ++ (A4 ++ (A5 ++ T)))) := List.drop_left' h0
  have d34 : (A0 ++ (A1 ++ (A2 ++ (A3 ++ (A4 ++ (A5 ++ T)))))).drop 34 =
      A2 ++ (A3 ++ (A4 ++ (A5 ++ T))) := by
    have e : (A0 ++ (A1 ++ (A2 ++ (A3 ++ (A4 ++ (A5 ++ T)))))).drop 34 =
        ((A0 ++ (A1 ++ (A2 ++ (A3 ++ (A4 ++ (A5 ++ T)))))).drop 17).drop 17 := by
      rw [List.drop_drop]
    rw [e, d17]
    exact List.drop_left' h1
  have d51 : (A0 ++ (A1 ++ (A2 ++ (A3 ++ (A4 ++ (A5 ++ T)))))).drop 51 =
      A3 ++ (A4 ++ (A5 ++ T)) := by
    have e : (A0 ++ (A1 ++ (A2 ++ (A3 ++ (A4 ++ (A5 ++ T)))))).drop 51 =
        ((A0 ++ (A1 ++ (A2 ++ (A3 ++ (A4 ++ (A5 ++ T)))))).drop 34).drop 17 := by
      rw [List.drop_drop]
    rw [e, d34]
    exact List.drop_left' h2
  have d68 : (A0 ++ (A1 ++ (A2 ++ (A3 ++ (A4 ++ (A5 ++ T)))))).drop 68 =
      A4 ++ (A5 ++ T) := by
    have e : (A0 ++ (A1 ++ (A2 ++ (A3 ++ (A4 ++ (A5 ++ T)))))).drop 68 =
        ((A0 ++ (A1 ++ (A2 ++ (A3 ++ (A4 ++ (A5 ++ T)))))).drop 51).drop 17 := by
      rw [List.drop_drop]
    rw [e, d51]
    exact List.drop_left' h3
  have d85 : (A0 ++ (A1 ++ (A2 ++ (A3 ++ (A4 ++ (A5 ++ T)))))).drop 85 =
      A5 ++ T := by
    have e : (A0 ++ (A1 ++ (A2 ++ (A3 ++ (A4 ++ (A5 ++ T)))))).drop 85 =
        ((A0 ++ (A1 ++ (A2 ++ (A3 ++ (A4 ++ (A5 ++ T)))))).drop 68).drop 17 := by
      rw [List.drop_drop]
    rw [e, d68]
    exact List.drop_left' h4
  have d102 : (A0 ++ (A1 ++ (A2 ++ (A3 ++ (A4 ++ (A5 ++ T)))))).drop 102 = T := by
    have e : (A0 ++ (A1 ++ (A2 ++ (A3 ++ (A4 ++ (A5 ++ T)))))).drop 102 =
        ((A0 ++ (A1 ++ (A2 ++ (A3 ++ (A4 ++ (A5 ++ T)))))).drop 85).drop 17 := by
      rw [List.drop_drop]
    rw [e, d85]
    exact List.drop_left' h5
  have t0 : (A0 ++ (A1 ++ (A2 ++ (A3 ++ (A4 ++ (A5 ++ T)))))).take 17 = A0 :=
    List.take_left' h0
  have t1 : ((A0 ++ (A1 ++ (A2 ++ (A3 ++ (A4 ++ (A5 ++ T)))))).drop 17).take 17 = A1 := by
    rw [d17]; exact List.take_left' h1
  have t2 : ((A0 ++ (A1 ++ (A2 ++ (A3 ++ (A4 ++ (A5 ++ T)))))).drop 34).take 17 = A2 := by
    rw [d34]; exact List.take_left' h2
  have t3 : ((A0 ++ (A1 ++ (A2 ++ (A3 ++ (A4 ++ (A5 ++ T)))))).drop 51).take 17 = A3 := by
    rw [d51]; exact List.take_left' h3
  have t4 : ((A0 ++ (A1 ++ (A2 ++ (A3 ++ (A4 ++ (A5 ++ T)))))).drop 68).take 17 = A4 := by
    rw [d68]; exact List.take_left' h4
  have t5 : ((A0 ++ (A1 ++ (A2 ++ (A3 ++ (A4 ++ (A5 ++ T)))))).drop 85).take 17 = A5 := by
    rw [d85]; exact List.take_left' h5
  have tT : ((A0 ++ (A1 ++ (A2 ++ (A3 ++ (A4 ++ (A5 ++ T)))))).drop 102).take 26 = T := by
    rw [d102]; exact List.take_of_length_le hT.le
  rw [t0, t1, t2, t3, t4, t5, tT]

theorem packVoice_concat (B0 B1 B2 B3 B4 B5 S : List Nat)
    (h0 : B0.length = 21) (h1 : B1.length = 21) (h2 : B2.length = 21)
    (h3 : B3.length = 21) (h4 : B4.length = 21) (h5 : B5.length = 21)
    (hS : S.length = 29) :
    packVoice (B0 ++ (B1 ++ (B2 ++ (B3 ++ (B4 ++ (B5 ++ S)))))) =
      packOscBytes B0 ++ (packOscBytes B1 ++ (packOscBytes B2 ++
      (packOscBytes B3 ++ (packOscBytes B4 ++ (packOscBytes B5 ++
      packVoiceTail S))))) := by
  rw [packVoice_eq]
  have d21 : (B0 ++ (B1 ++ (B2 ++ (B3 ++ (B4 ++ (B5 ++ S)))))).drop 21 =
      B1 ++ (B2 ++ (B3 ++ (B4 ++ (B5 ++ S)))) := List.drop_left' h0
  have d42 : (B0 ++ (B1 ++ (B2 ++ (B3 ++ (B4 ++ (B5 ++ S)))))).drop 42 =
      B2 ++ (B3 ++ (B4 ++ (B5 ++ S))) := by
    have e : (B0 ++ (B1 ++ (B2 ++ (B3 ++ (B4 ++ (B5 ++ S)))))).drop 42 =
        ((B0 ++ (B1 ++ (B2 ++ (B3 ++ (B4 ++ (B5 ++ S)))))).drop 21).drop 21 := by
      rw [List.drop_drop]
    rw [e, d21]
    exact List.drop_left' h1
  have d63 : (B0 ++ (B1 ++ (B2 ++ (B3 ++ (B4 ++ (B5 ++ S)))))).drop 63 =
      B3 ++ (B4 ++ (B5 ++ S)) := by
    have e : (B0 ++ (B1 ++ (B2 ++ (B3 ++ (B4 ++ (B5 ++ S)))))).drop 63 =
        ((B0 ++ (B1 ++ (B2 ++ (B3 ++ (B4 ++ (B5 ++ S)))))).drop 42).drop 21 := by
      rw [List.drop_drop]
    rw [e, d42]
    exact List.drop_left' h2
  have d84 : (B0 ++ (B1 ++ (B2 ++ (B3 ++ (B4 ++ (B5 ++ S)))))).drop 84 =
      B4 ++ (B5 ++ S) := by
    have e : (B0 ++ (B1 ++ (B2 ++ (B3 ++ (B4 ++ (B5 ++ S)))))).drop 84 =
        ((B0 ++ (B1 ++ (B2 ++ (B3 ++ (B4 ++ (B5 ++ S)))))).drop 63).drop 21 := by
      rw [List.drop_drop]
    rw [e, d63]
    exact List.drop_left' h3
  have d105 : (B0 ++ (B1 ++ (B2 ++ (B3 ++ (B4 ++ (B5 ++ S)))))).drop 105 =
      B5 ++ S := by
    have e : (B0 ++ (B1 ++ (B2 ++ (B3 ++ (B4 ++ (B5 ++ S)))))).drop 105 =
        ((B0 ++ (B1 ++ (B2 ++ (B3 ++ (B4 ++ (B5 ++ S)))))).drop 84).drop 21 := by
      rw [List.drop_drop]
    rw [e, d84]
    exact List.drop_left' h4
  have d126 : (B0 ++ (B1 ++ (B2 ++ (B3 ++ (B4 ++ (B5 ++ S)))))).drop 126 = S := by
    have e : (B0 ++ (B1 ++ (B2 ++ (B3 ++ (B4 ++ (B5 ++ S)))))).drop 126 =
        ((B0 ++ (B1 ++ (B2 ++ (B3 ++ (B4 ++ (B5 ++ S)))))).drop 105).drop 21 := by
      rw [List.drop_drop]
    rw [e, d105]
    exact List.drop_left' h5
  have t0 : (B0 ++ (B1 ++ (B2 ++ (B3 ++ (B4 ++ (B5 ++ S)))))).take 21 = B0 :=
    List.take_left' h0
  have t1 : ((B0 ++ (B1 ++ (B2 ++ (B3 ++ (B4 ++ (B5 ++ S)))))).drop 21).take 21 = B1 := by
    rw [d21]; exact List.take_left' h1
  have t2 : ((B0 ++ (B1 ++ (B2 ++ (B3 ++ (B4 ++ (B5 ++ S)))))).drop 42).take 21 = B2 := by
    rw [d42]; exact List.take_left' h2
  have t3 : ((B0 ++ (B1 ++ (B2 ++ (B3 ++ (B4 ++ (B5 ++ S)))))).drop 63).take 21 = B3 := by
    rw [d63]; exact List.take_left' h3
  have t4 : ((B0 ++ (B1 ++ (B2 ++ (B3 ++ (B4 ++ (B5 ++ S)))))).drop 84).take 21 = B4 := by
    rw [d84]; exact List.take_left' h4
  have t5 : ((B0 ++ (B1 ++ (B2 ++ (B3 ++ (B4 ++ (B5 ++ S)))))).drop 105).take 21 = B5 := by
    rw [d105]; exact List.take_left' h5
  have tS : ((B0 ++ (B1 ++ (B2 ++ (B3 ++ (B4 ++ (B5 ++ S)))))).drop 126).take 29 = S := by
    rw [d126]; exact List.take_of_length_le hS.le
  rw [t0, t1, t2, t3, t4, t5, tS]

theorem chunks_reassemble (v : List Nat) (hlen : v.length = 155) :
    v.take 21 ++ ((v.drop 21).take 21 ++ ((v.drop 42).take 21 ++
      ((v.drop 63).take 21 ++ ((v.drop 84).take 21 ++ ((v.drop 105).take 21 ++
      (v.drop 126).take 29))))) = v := by
  have h1 : (v.drop 126).take 29 = v.drop 126 :=
    List.take_of_length_le (by simp [hlen])
  rw [h1]
  have s5 : (v.drop 105).take 21 ++ v.drop 126 = v.drop 105 := by
    have e := List.drop_take_append_drop v 105 21
    norm_num at e
    exact e
  rw [s5]
  have s4 : (v.drop 84).take 21 ++ v.drop 105 = v.drop 84 := by
    have e := List.drop_take_append_drop v 84 21
    norm_num at e
    exact e
  rw [s4]
  have s3 : (v.drop 63).take 21 ++ v.drop 84 = v.drop 63 := by
    have e := List.drop_take_append_drop v 63 21
    norm_num at e
    exact e
  rw [s3]
  have s2 : (v.drop 42).take 21 ++ v.drop 63 = v.drop 42 := by
    have e := List.drop_take_append_drop v 42 21
    norm_num at e
    exact e
  rw [s2]
  have s1 : (v.drop 21).take 21 ++ v.drop 42 = v.drop 21 := by
    have e := List.drop_take_append_drop v 21 21
    norm_num at e
    exact e
  rw [s1]
  exact List.take_append_drop 21 v

theorem getD_take_lt (v : List Nat) (b k : Nat) (h : k < b) :
    (v.take b).getD k 0 = v.getD k 0 := by
  simp [List.getD_eq_getElem?_getD, List.getElem?_take, h]

theorem getD_drop_take (v : List Nat) (a b k : Nat) (h : k < b) :
    ((v.drop a).take b).getD k 0 = v.getD (a + k) 0 := by
  simp [List.getD_eq_getElem?_getD, List.getElem?_take, h, List.getElem?_drop]

/-! ## Voice-level round trips -/

set_option maxHeartbeats 1000000 in
/-- Unpacking after packing restores a valid unpacked voice whose
Pitch_Mod_Sensitivity byte (offset 17 of the tail, byte 143) fits the
two-bit mask the packing code applies to it. -/
theorem unpackVoice_packVoice (v : List Nat) (hlen : v.length = 155)
    (hv : ValidUnpackedVoice v) (hpms : v.getD 143 0 ≤ 3) :
    unpackVoice (packVoice v) = v := by
  have l0 : (v.take 21).length = 21 := by simp [hlen]
  have l1 : ((v.drop 21).take 21).length = 21 := by simp [hlen]
  have l2 : ((v.drop 42).take 21).length = 21 := by simp [hlen]
  have l3 : ((v.drop 63).take 21).length = 21 := by simp [hlen]
  have l4 : ((v.drop 84).take 21).length = 21 := by simp [hlen]
  have l5 : ((v.drop 105).take 21).length = 21 := by simp [hlen]
  have lt : ((v.drop 126).take 29).length = 29 := by simp [hlen]
  rw [packVoice_eq v]
  rw [unpackVoice_concat _ _ _ _ _ _ _
      (packOscBytes_length _ l0) (packOscBytes_length _ l1) (packOscBytes_length _ l2)
      (packOscBytes_length _ l3) (packOscBytes_length _ l4) (packOscBytes_length _ l5)
      (packVoiceTail_length _ lt)]
  rw [unpackOsc_packOsc (v.take 21) l0
        (by rw [getD_take_lt v 21 11 (by norm_num)]; exact le_trans (hv 11 (by norm_num)) (by decide))
        (by rw [getD_take_lt v 21 12 (by norm_num)]; exact le_trans (hv 12 (by norm_num)) (by decide))
        (by rw [getD_take_lt v 21 13 (by norm_num)]; exact le_trans (hv 13 (by norm_num)) (by decide))
        (by rw [getD_take_lt v 21 14 (by norm_num)]; exact le_trans (hv 14 (by norm_num)) (by decide))
        (by rw [getD_take_lt v 21 15 (by norm_num)]; exact le_trans (hv 15 (by norm_num)) (by decide))
        (by rw [getD_take_lt v 21 17 (by norm_num)]; exact le_trans (hv 17 (by norm_num)) (by decide))
        (by rw [getD_take_lt v 21 18 (by norm_num)]; exact le_trans (hv 18 (by norm_num)) (by decide))
        (by rw [getD_take_lt v 21 20 (by norm_num)]; exact le_trans (hv 20 (by norm_num)) (by decide)),
      unpackOsc_packOsc ((v.drop 21).take 21) l1
        (by rw [getD_drop_take v 21 21 11 (by norm_num)]; exact le_trans (hv 32 (by norm_num)) (by decide))
        (by rw [getD_drop_take v 21 21 12 (by norm_num)]; exact le_trans (hv 33 (by norm_num)) (by decide))
        (by rw [getD_drop_take v 21 21 13 (by norm_num)]; exact le_trans (hv 34 (by norm_num)) (by decide))
        (by rw [getD_drop_take v 21 21 14 (by norm_num)]; exact le_trans (hv 35 (by norm_num)) (by decide))
        (by rw [getD_drop_take v 21 21 15 (by norm_num)]; exact le_trans (hv 36 (by norm_num)) (by decide))
        (by rw [getD_drop_take v 21 21 17 (by norm_num)]; exact le_trans (hv 38 (by norm_num)) (by decide))
        (by rw [getD_drop_take v 21 21 18 (by norm_num)]; exact le_trans (hv 39 (by norm_num)) (by decide))
        (by rw [getD_drop_take v 21 21 20 (by norm_num)]; exact le_trans (hv 41 (by norm_num)) (by decide)),
      unpackOsc_packOsc ((v.drop 42).take 21) l2
        (by rw [getD_drop_take v 42 21 11 (by norm_num)]; exact le_trans (hv 53 (by norm_num)) (by decide))
        (by rw [getD_drop_take v 42 21 12 (by norm_num)]; exact le_trans (hv 54 (by norm_num)) (by decide))
        (by rw [getD_drop_take v 42 21 13 (by norm_num)]; exact le_trans (hv 55 (by norm_num)) (by decide))
        (by rw [getD_drop_take v 42 21 14 (by norm_num)]; exact le_trans (hv 56 (by norm_num)) (by decide))
        (by rw [getD_drop_take v 42 21 15 (by norm_num)]; exact le_trans (hv 57 (by norm_num)) (by decide))
        (by rw [getD_drop_take v 42 21 17 (by norm_num)]; exact le_trans (hv 59 (by norm_num)) (by decide))
        (by rw [getD_drop_take v 42 21 18 (by norm_num)]; exact le_trans (hv 60 (by norm_num)) (by decide))
        (by rw [getD_drop_take v 42 21 20 (by norm_num)]; exact le_trans (hv 62 (by norm_num)) (by decide)),
      unpackOsc_packOsc ((v.drop 63).take 21) l3
        (by rw [getD_drop_take v 63 21 11 (by norm_num)]; exact le_trans (hv 74 (by norm_num)) (by decide))
        (by rw [getD_drop_take v 63 21 12 (by norm_num)]; exact le_trans (hv 75 (by norm_num)) (by decide))
        (by rw [getD_drop_take v 63 21 13 (by norm_num)]; exact le_trans (hv 76 (by norm_num)) (by decide))
        (by rw [getD_drop_take v 63 21 14 (by norm_num)]; exact le_trans (hv 77 (by norm_num)) (by decide))
        (by rw [getD_drop_take v 63 21 15 (by norm_num)]; exact le_trans (hv 78 (by norm_num)) (by decide))
        (by rw [getD_drop_take v 63 21 17 (by norm_num)]; exact le_trans (hv 80 (by norm_num)) (by decide))
        (by rw [getD_drop_take v 63 21 18 (by norm_num)]; exact le_trans (hv 81 (by norm_num)) (by decide))
        (by rw [getD_drop_take v 63 21 20 (by norm_num)]; exact le_trans (hv 83 (by norm_num)) (by decide)),
      unpackOsc_packOsc ((v.drop 84).take 21) l4
        (by rw [getD_drop_take v 84 21 11 (by norm_num)]; exact le_trans (hv 95 (by norm_num)) (by decide))
        (by rw [getD_drop_take v 84 21 12 (by norm_num)]; exact le_trans (hv 96 (by norm_num)) (by decide))
        (by rw [getD_drop_take v 84 21 13 (by norm_num)]; exact le_trans (hv 97 (by norm_num)) (by decide))
        (by rw [getD_drop_take v 84 21 14 (by norm_num)]; exact le_trans (hv 98 (by norm_num)) (by decide))
        (by rw [getD_drop_take v 84 21 15 (by norm_num)]; exact le_trans (hv 99 (by norm_num)) (by decide))
        (by rw [getD_drop_take v 84 21 17 (by norm_num)]; exact le_trans (hv 101 (by norm_num)) (by decide))
        (by rw [getD_drop_take v 84 21 18 (by norm_num)]; exact le_trans (hv 102 (by norm_num)) (by decide))
        (by rw [getD_drop_take v 84 21 20 (by norm_num)]; exact le_trans (hv 104 (by norm_num)) (by decide)),
      unpackOsc_packOsc ((v.drop 105).take 21) l5
        (by rw [getD_drop_take v 105 21 11 (by norm_num)]; exact le_trans (hv 116 (by norm_num)) (by decide))
        (by rw [getD_drop_take v 105 21 12 (by norm_num)]; exact le_trans (hv 117 (by norm_num)) (by decide))
        (by rw [getD_drop_take v 105 21 13 (by norm_num)]; exact le_trans (hv 118 (by norm_num)) (by decide))
        (by rw [getD_drop_take v 105 21 14 (by norm_num)]; exact le_trans (hv 119 (by norm_num)) (by decide))
        (by rw [getD_drop_take v 105 21 15 (by norm_num)]; exact le_trans (hv 120 (by norm_num)) (by decide))
        (by rw [getD_drop_take v 105 21 17 (by norm_num)]; exact le_trans (hv 122 (by norm_num)) (by decide))
        (by rw [getD_drop_take v 105 21 18 (by norm_num)]; exact le_trans (hv 123 (by norm_num)) (by decide))
        (by rw [getD_drop_take v 105 21 20 (by norm_num)]; exact le_trans (hv 125 (by norm_num)) (by decide)),
      unpackTail_packTail ((v.drop 126).take 29) lt
        (by rw [getD_drop_take v 126 29 8 (by norm_num)]; exact le_trans (hv 134 (by norm_num)) (by decide))
        (by rw [getD_drop_take v 126 29 9 (by norm_num)]; exact le_trans (hv 135 (by norm_num)) (by decide))
        (by rw [getD_drop_take v 126 29 10 (by norm_num)]; exact le_trans (hv 136 (by norm_num)) (by decide))
        (by rw [getD_drop_take v 126 29 15 (by norm_num)]; exact le_trans (hv 141 (by norm_num)) (by decide))
        (by rw [getD_drop_take v 126 29 16 (by norm_num)]; exact le_trans (hv 142 (by norm_num)) (by decide))
        (by rw [getD_drop_take v 126 29 17 (by norm_num)]; exact hpms)]
  exact chunks_reassemble v hlen

set_option maxHeartbeats 1000000 in
/-- Packing after unpacking is the identity on any packed image. -/
theorem packVoice_unpackVoice_packVoice (v : List Nat) (hlen : v.length = 155) :
    packVoice (unpackVoice (packVoice v)) = packVoice v := by
  have l0 : (v.take 21).length = 21 := by simp [hlen]
  have l1 : ((v.drop 21).take 21).length = 21 := by simp [hlen]
  have l2 : ((v.drop 42).take 21).length = 21 := by simp [hlen]
  have l3 : ((v.drop 63).take 21).length = 21 := by simp [hlen]
  have l4 : ((v.drop 84).take 21).length = 21 := by simp [hlen]
  have l5 : ((v.drop 105).take 21).length = 21 := by simp [hlen]
  have lt : ((v.drop 126).take 29).length = 29 := by simp [hlen]
  have p0 : (packOscBytes (v.take 21)).length = 17 := packOscBytes_length _ l0
  have p1 : (packOscBytes ((v.drop 21).take 21)).length = 17 := packOscBytes_length _ l1
  have p2 : (packOscBytes ((v.drop 42).take 21)).length = 17 := packOscBytes_length _ l2
  have p3 : (packOscBytes ((v.drop 63).take 21)).length = 17 := packOscBytes_length _ l3
  have p4 : (packOscBytes ((v.drop 84).take 21)).length = 17 := packOscBytes_length _ l4
  have p5 : (packOscBytes ((v.drop 105).take 21)).length = 17 := packOscBytes_length _ l5
  have pT : (packVoiceTail ((v.drop 126).take 29)).length = 26 := packVoiceTail_length _ lt
  rw [packVoice_eq v]
  rw [unpackVoice_concat _ _ _ _ _ _ _ p0 p1 p2 p3 p4 p5 pT]
  rw [packVoice_concat _ _ _ _ _ _ _
      (unpackOscBytes_length _ p0) (unpackOscBytes_length _ p1)
      (unpackOscBytes_length _ p2) (unpackOscBytes_length _ p3)
      (unpackOscBytes_length _ p4) (unpackOscBytes_length _ p5)
      (unpackVoiceTail_length _ pT)]
  rw [packOsc_roundtrip (v.take 21) l0,
      packOsc_roundtrip ((v.drop 21).take 21) l1,
      packOsc_roundtrip ((v.drop 42).take 21) l2,
      packOsc_roundtrip ((v.drop 63).take 21) l3,
      packOsc_roundtrip ((v.drop 84).take 21) l4,
      packOsc_roundtrip ((v.drop 105).take 21) l5,
      packTail_roundtrip ((v.drop 126).take 29) lt]

/-! ## Claim C1: codec round trip -/

/-- C1 (counterexample): the claimed round trip unpack(pack(V)) = V fails on
a valid 155-byte unpacked payload whose Pitch_Mod_Sensitivity is 4. -/
theorem c1_roundtrip_counterexample :
    pmsCounterexampleVoice.length = 155 ∧
    ValidUnpackedVoice pmsCounterexampleVoice ∧
    unpackVoice (packVoice pmsCounterexampleVoice) ≠ pmsCounterexampleVoice :=
  ⟨by decide, by decide, by decide⟩

/-- C1 (amended): for every valid unpacked 155-byte voice payload V whose
Pitch_Mod_Sensitivity byte (index 143) is at most 3, unpacking the packed
form gives back V exactly; and for every 128-byte packed payload that
originated from a pack() call, packing its unpacked form gives the packed
payload back exactly (this direction needs no range assumption). -/
theorem c1_codec_roundtrip :
    (∀ v : List Nat, v.length = 155 → ValidUnpackedVoice v → v.getD 143 0 ≤ 3 →
        unpackVoice (packVoice v) = v) ∧
    (∀ v : List Nat, v.length = 155 →
        packVoice (unpackVoice (packVoice v)) = packVoice v) :=
  ⟨unpackVoice_packVoice, packVoice_unpackVoice_packVoice⟩

theorem c1_codec_roundtrip_witness :
    c1WitnessVoice.length = 155 ∧ ValidUnpackedVoice c1WitnessVoice ∧
    c1WitnessVoice.getD 143 0 ≤ 3 ∧
    unpackVoice (packVoice c1WitnessVoice) = c1WitnessVoice :=
  ⟨by decide, by decide, by decide,
   c1_codec_roundtrip.1 c1WitnessVoice (by decide) (by decide) (by decide)⟩

/-! ## Claim C2: checksum formulas of the three send/save paths -/

/-- C2: the bulk-dump/file paths (Cart.save_to_file, Cart.send_to_dexed)
append the twos-complement checksum, which neutralizes the payload sum
modulo 128 for every payload; the single-voice path (Voice.send_to_dexed)
appends the plain masked sum of its 155 payload bytes. -/
theorem c2_checksum_paths :
    (∀ payload : List Nat,
        (payload.sum + twosComplementChecksum payload) % 128 = 0) ∧
    (∀ voices : List VoiceRec,
        save_to_file_bytes voices =
          [0xF0, 0x43, 0x00, 0x09, 0x20, 0x00] ++
            convertTo32VoiceDumpFormat (cartFlattenedBytes voices) ++
            [twosComplementChecksum
              (convertTo32VoiceDumpFormat (cartFlattenedBytes voices)), 0xF7]) ∧
    (∀ voices : List VoiceRec,
        cart_send_to_dexed_message voices = save_to_file_bytes voices) ∧
    (∀ (v : VoiceRec) (channel : Nat),
        (voice_send_to_dexed v channel).1 =
          [0xF0, 0x43, channel, 0x00, 0x01, 0x1B] ++ voiceDumpPayload v ++
            [maskedSumChecksum (voiceDumpPayload v), 0xF7]) := by
  refine ⟨fun payload => ?_, fun _ => rfl, fun _ => rfl,
    fun v channel => by simp [voice_send_to_dexed, maskedSumChecksum]⟩
  unfold twosComplementChecksum
  omega

/-! ## Claim C7: address uniqueness -/

/-- C7: the MIDI address map is injective on the combined oscillator+voice
field space and lands in 0..155; it is injective on the Function field
space and lands in 64..77; with the three worked examples of the spec. -/
theorem c7_midi_addr_injective :
    Function.Injective oscVoiceAddrOf ∧
    (∀ f, oscVoiceAddrOf f ≤ 155) ∧
    Function.Injective functionMidiAddrOf ∧
    (∀ p, 64 ≤ functionMidiAddrOf p ∧ functionMidiAddrOf p ≤ 77) ∧
    oscMidiAddrOf 1 .Oscillator_Mode = 122 ∧
    voiceMidiAddrOf .ActiveOscillators = 155 ∧
    functionMidiAddrOf .Aftertouch_Assign = 77 :=
  ⟨by decide, by decide, by decide, by decide, rfl, rfl, rfl⟩

/-! ## Claim C10: the Cart filename default -/

/-- C10: with the declared default value of the filename parameter (the
type expression str | None, which is not None), Cart() and
Cart(voices=...) both go down the read_from_file path and raise; the fresh
in-memory cart of 32 default voices is obtained with an explicit
filename=None. -/
theorem c10_cart_default_filename :
    (∀ fs : String → Option (List Nat),
        cartInit none .typeUnionDefault fs =
          .error "TypeError: expected str, bytes or os.PathLike object, not UnionType") ∧
    (∀ (fs : String → Option (List Nat)) (vs : List VoiceRec),
        cartInit (some vs) .typeUnionDefault fs =
          .error "TypeError: expected str, bytes or os.PathLike object, not UnionType") ∧
    (∀ fs : String → Option (List Nat),
        cartInit none .pyNone fs = .ok ((List.range 32).map defaultVoice)) :=
  ⟨fun _ => rfl, fun _ _ => rfl, fun _ => rfl⟩

/-! ## Claim C5: the single-voice dump and its follow-up parameter change -/

/-- C5 (code bug, evaluated at the failing input channel = 1): the dump
message itself is the documented 163-byte message on channel 1, but the
follow-up ActiveOscillators parameter change comes out as
F0 43 10 09 1B 3F F7 - sub-status nibble for channel 0 and the
function-change flag set - because Voice.send_to_dexed passes channel
positionally into the function_change parameter of send_dexed_parameter.
The documented message on the same channel would be F0 43 11 01 1B 3F F7.
At channel 0 the two coincide and the documented behaviour holds. -/
theorem c5_followup_channel_bug :
    (voice_send_to_dexed (defaultVoice 0) 1).1 =
      [0xF0, 0x43, 0x01, 0x00, 0x01, 0x1B] ++ List.replicate 155 0 ++ [0x00, 0xF7] ∧
    ((voice_send_to_dexed (defaultVoice 0) 1).1).length = 163 ∧
    (voice_send_to_dexed (defaultVoice 0) 1).2 =
      .ok [[0xF0, 0x43, 0x10, 0x09, 0x1B, 0x3F, 0xF7]] ∧
    specParamChangeMessage 155 1 false 63 = [0xF0, 0x43, 0x11, 0x01, 0x1B, 0x3F, 0xF7] ∧
    [[0xF0, 0x43, 0x10, 0x09, 0x1B, 0x3F, 0xF7]] ≠
      ([[0xF0, 0x43, 0x11, 0x01, 0x1B, 0x3F, 0xF7]] : List (List Nat)) ∧
    (voice_send_to_dexed (defaultVoice 0) 0).2 =
      .ok [specParamChangeMessage 155 0 false 63] :=
  ⟨by decide, by decide, by decide, by decide, by decide, by decide⟩

/-! ## Claim C3: read_from_file header and checksum handling -/

/-- Helper: reading a well-formed cart file - the fixed six-byte header,
any 4096-byte payload and any checksum byte - succeeds, with a warning flag
exactly when the checksum byte mismatches the twos-complement checksum. -/
theorem read_from_file_wellformed (p : List Nat) (c : Nat) (hlen : p.length = 4096) :
    read_from_file (([0xF0, 0x43, 0x00, 0x09, 0x20, 0x00] ++ p) ++ [c, 0xF7]) =
      .ok { checksumWarning := decide (c ≠ twosComplementChecksum p),
            voices := (List.range 32).map
              (fun i => voiceFromDump (convertFrom32VoiceDumpFormat p) i) } := by
  have hlen6 : ([0xF0, 0x43, 0x00, 0x09, 0x20, 0x00] ++ p).length = 4102 := by
    simp [hlen]
  have hlenAll : (([0xF0, 0x43, 0x00, 0x09, 0x20, 0x00] ++ p) ++ [c, 0xF7]).length = 4104 := by
    simp [hlen]
  have htake : ((([0xF0, 0x43, 0x00, 0x09, 0x20, 0x00] ++ p) ++ [c, 0xF7]).take 4102) =
      [0xF0, 0x43, 0x00, 0x09, 0x20, 0x00] ++ p := List.take_left' hlen6
  have hdrop : (([0xF0, 0x43, 0x00, 0x09, 0x20, 0x00] ++ p)).drop 6 = p :=
    List.drop_left' rfl
  have hgetD : ((([0xF0, 0x43, 0x00, 0x09, 0x20, 0x00] ++ p) ++ [c, 0xF7]).getD 4102 0) = c := by
    rw [List.getD_append_right _ _ _ _ hlen6.le, hlen6]
    simp
  have h44 : ((([0xF0, 0x43, 0x00, 0x09, 0x20, 0x00] ++ p) ++ [c, 0xF7]).take 4) =
      [0xF0, 0x43, 0x00, 0x09] := rfl
  have h42 : (((([0xF0, 0x43, 0x00, 0x09, 0x20, 0x00] ++ p) ++ [c, 0xF7]).drop 4).take 2) =
      [0x20, 0x00] := rfl
  unfold read_from_file
  rw [if_neg, if_neg]
  · rw [hlenAll]
    have hsub : (4104 - 2 : Nat) = 4102 := rfl
    rw [hsub, htake, hdrop, hgetD]
  · rw [h42]
    simp
  · rw [h44]
    simp

/-- Helper: a status byte other than 0x00 in the third header position is a
fatal format error, whatever follows. -/
theorem read_from_file_wrong_status (ch : Nat) (rest : List Nat) (hch : ch ≠ 0) :
    read_from_file ([0xF0, 0x43, ch, 0x09] ++ rest) =
      .error "Invalid Dexed cart file format: missing header" := by
  have h4 : ([0xF0, 0x43, ch, 0x09] ++ rest).take 4 = [0xF0, 0x43, ch, 0x09] := rfl
  unfold read_from_file
  rw [if_pos]
  rw [h4]
  simp [hch]

/-- C3 (counterexample): a cart file for channel 1 - header
F0 43 01 09 20 00, 4096 payload bytes and a correct checksum - is rejected
by read_from_file, against the claim that every channel 0-15 is accepted. -/
theorem c3_channel_header_counterexample :
    read_from_file ([0xF0, 0x43, 0x01, 0x09, 0x20, 0x00] ++ List.replicate 4096 0 ++ [0, 0xF7]) =
      .error "Invalid Dexed cart file format: missing header" := by decide

/-- C3 (amended): read_from_file accepts only the fixed header
F0 43 00 09 20 00, i.e. status byte 0x00 (channel 0); a status byte with
any nonzero channel nibble is a fatal format error that aborts the read.
On an accepted file a trailing checksum byte mismatching the
twos-complement formula over the 4096-byte payload only sets the warning
flag, and the read proceeds to reconstitute 32 Voice records. -/
theorem c3_read_header_and_checksum :
    (∀ (p : List Nat) (c : Nat), p.length = 4096 →
        read_from_file (([0xF0, 0x43, 0x00, 0x09, 0x20, 0x00] ++ p) ++ [c, 0xF7]) =
          .ok { checksumWarning := decide (c ≠ twosComplementChecksum p),
                voices := (List.range 32).map
                  (fun i => voiceFromDump (convertFrom32VoiceDumpFormat p) i) } ∧
        ((List.range 32).map
            (fun i => voiceFromDump (convertFrom32VoiceDumpFormat p) i)).length = 32) ∧
    (∀ (ch : Nat) (rest : List Nat), ch ≠ 0 →
        read_from_file ([0xF0, 0x43, ch, 0x09] ++ rest) =
          .error "Invalid Dexed cart file format: missing header") :=
  ⟨fun p c h => ⟨read_from_file_wellformed p c h, by simp⟩,
   read_from_file_wrong_status⟩

/-! ## Helper lemmas on all-zero payloads -/

theorem slice_replicate (m a b : Nat) (h : a + b ≤ m) :
    ((List.replicate m (0:Nat)).drop a).take b = List.replicate b 0 := by
  rw [List.drop_replicate, List.take_replicate]
  congr 1
  omega

theorem flatMap_range_zero (m : Nat) : ∀ (n : Nat) (f : Nat → List Nat),
    (∀ i, i < n → f i = List.replicate m 0) →
    (List.range n).flatMap f = List.replicate (n*m) 0 := by
  intro n
  induction n with
  | zero => intro f h; simp
  | succ k ih =>
    intro f h
    rw [List.range_succ, List.flatMap_append]
    rw [ih f (fun i hi => h i (by omega))]
    simp [h k (by omega)]
    ring

theorem packVoice_zero : packVoice (List.replicate 155 0) = List.replicate 128 0 := by decide

theorem unpackVoice_zero : unpackVoice (List.replicate 128 0) = List.replicate 155 0 := by decide

theorem convertTo32_zero :
    convertTo32VoiceDumpFormat (List.replicate 4960 0) = List.replicate 4096 0 := by
  unfold convertTo32VoiceDumpFormat
  exact flatMap_range_zero 128 32 _ (fun i hi => by
    rw [slice_replicate 4960 (155*i) 155 (by omega), packVoice_zero])

theorem convertFrom32_zero :
    convertFrom32VoiceDumpFormat (List.replicate 4096 0) = List.replicate 4960 0 := by
  unfold convertFrom32VoiceDumpFormat
  exact flatMap_range_zero 155 32 _ (fun i hi => by
    rw [slice_replicate 4096 (128*i) 128 (by omega), unpackVoice_zero])

theorem checksum_zero : twosComplementChecksum (List.replicate 4096 0) = 0 := by
  have h : (List.replicate 4096 (0:Nat)).sum = 0 := by
    rw [List.sum_replicate]
    simp
  unfold twosComplementChecksum
  rw [h]
  decide

/-! ## Claim C4: save-then-reload of a fresh cart -/

theorem cartFlattened_fresh : cartFlattenedBytes freshCartVoices = List.replicate 4960 0 := by
  unfold cartFlattenedBytes freshCartVoices
  rw [List.flatMap_map]
  exact flatMap_range_zero 155 32 _ (fun i hi => rfl)

/-- Helper: the file a fresh cart saves to is the fixed header, 4096 zero
bytes, a zero checksum and the terminator. -/
theorem save_fresh : save_to_file_bytes freshCartVoices =
    ([0xF0, 0x43, 0x00, 0x09, 0x20, 0x00] ++ List.replicate 4096 0) ++ [0, 0xF7] := by
  unfold save_to_file_bytes
  rw [cartFlattened_fresh, convertTo32_zero, checksum_zero]

theorem voiceFromDump_zero (i : Nat) (h : i ≤ 31) :
    voiceFromDump (List.replicate 4960 0) i = defaultVoice i := by
  unfold voiceFromDump defaultVoice defaultOscillator
  rw [slice_replicate 4960 (155*i) 21 (by omega),
      slice_replicate 4960 (155*i + 21) 21 (by omega),
      slice_replicate 4960 (155*i + 42) 21 (by omega),
      slice_replicate 4960 (155*i + 63) 21 (by omega),
      slice_replicate 4960 (155*i + 84) 21 (by omega),
      slice_replicate 4960 (155*i + 105) 21 (by omega),
      slice_replicate 4960 (155*i + 126) 29 (by omega)]
  simp [pyDataInit]

/-- Helper: saving a fresh cart and reading the file back succeeds with no
checksum warning and returns exactly the 32 default voices. -/
theorem read_save_fresh_cart :
    read_from_file (save_to_file_bytes freshCartVoices) =
      .ok { checksumWarning := false, voices := freshCartVoices } := by
  rw [save_fresh, read_from_file_wellformed _ 0 (by rw [List.length_replicate]), convertFrom32_zero, checksum_zero]
  have hv : (List.range 32).map (fun i => voiceFromDump (List.replicate 4960 0) i)
      = freshCartVoices := by
    unfold freshCartVoices
    exact List.map_congr_left (fun i hi =>
      voiceFromDump_zero i (by have := List.mem_range.mp hi; omega))
  rw [hv]
  rfl

/-- C4 (counterexample): the name bytes of the first reloaded voice are ten
NUL bytes, which are not the ten spaces the claim names as the default. -/
theorem c4_default_name_counterexample :
    (read_from_file (save_to_file_bytes freshCartVoices)).toOption.map
        (fun r => (r.voices.getD 0 (defaultVoice 0)).data.drop 19) =
      some (List.replicate 10 0) ∧
    (List.replicate 10 0 : List Nat) ≠ List.replicate 10 32 := by
  refine ⟨?_, by decide⟩
  rw [read_save_fresh_cart]
  decide

/-- C4 (amended): a fresh Cart of 32 default Voices, saved with
save_to_file and reloaded with read_from_file, is accepted without a
checksum warning and yields exactly the 32 default Voices again - every
scalar field 0 and every name byte 0 (ten NUL bytes, not ten spaces). -/
theorem c4_default_cart_roundtrip :
    read_from_file (save_to_file_bytes freshCartVoices) =
      .ok { checksumWarning := false, voices := freshCartVoices } ∧
    (defaultVoice 0).data.drop 19 = List.replicate 10 0 :=
  ⟨read_save_fresh_cart, by decide⟩

/-! ## Claim C6: parameter-change message framing -/

theorem statusByte_or (ch : Nat) (hch : ch ≤ 15) : (1 <<< 4) ||| ch = 0x01 * 16 + ch := by
  interval_cases ch <;> rfl

theorem flagByte_or (x : Nat) (hx : x ≤ 3) : (8 : Nat) ||| x = 8 + x := by
  interval_cases x <;> rfl

/-- Helper: one loop iteration of send_dexed_parameter produces exactly the
message the specification describes. -/
theorem message_head (a ch : Nat) (f : Bool) (vb : Int) (hch : ch ≤ 15) :
    ([0xF0, 0x43, 0x01 * 16 + ch,
      (if f then 0x8 else 0) + ((a >>> 7) &&& 0x03), a &&& 0x7F,
      (if vb < 0 ∨ 127 < vb then ((vb % 128).toNat) else vb.toNat), 0xF7] : List Nat) =
    specParamChangeMessage a ch f vb := by
  unfold specParamChangeMessage
  have h1 : (1 <<< 4) ||| ch = 0x01 * 16 + ch := statusByte_or ch hch
  have h2 : (if f then (0x08:Nat) else 0x00) ||| ((a >>> 7) &&& 0x03) =
      (if f then 0x8 else 0) + ((a >>> 7) &&& 0x03) := by
    cases f with
    | true =>
      show (8:Nat) ||| ((a >>> 7) &&& 0x03) = 8 + ((a >>> 7) &&& 0x03)
      exact flagByte_or _ Nat.and_le_right
    | false =>
      show (0:Nat) ||| ((a >>> 7) &&& 0x03) = 0 + ((a >>> 7) &&& 0x03)
      rw [Nat.zero_or, Nat.zero_add]
  have h3 : (if vb < 0 ∨ 127 < vb then ((vb % 128).toNat) else vb.toNat) =
      (vb % 128).toNat := by
    by_cases h : vb < 0 ∨ 127 < vb
    · rw [if_pos h]
    · rw [if_neg h]
      congr 1
      rw [Int.emod_eq_of_lt (by omega) (by omega)]
  rw [h1, h2, h3]

/-- Helper: the message loop emits one specification message per value
byte, incrementing the address by one each time. -/
theorem paramChangeLoop_spec (bytes : List Int) : ∀ (a ch : Nat) (f : Bool), ch ≤ 15 →
    paramChangeLoop a ch f bytes =
      (List.range bytes.length).map
        (fun k => specParamChangeMessage (a + k) ch f (bytes.getD k 0)) := by
  induction bytes with
  | nil => intro a ch f h; rfl
  | cons vb rest ih =>
    intro a ch f h
    show ([0xF0, 0x43, 0x01 * 16 + ch,
      (if f then 0x8 else 0) + ((a >>> 7) &&& 0x03), a &&& 0x7F,
      (if vb < 0 ∨ 127 < vb then ((vb % 128).toNat) else vb.toNat), 0xF7]) ::
        paramChangeLoop (a+1) ch f rest = _
    rw [ih (a+1) ch f h]
    show _ = (List.range (rest.length + 1)).map _
    rw [List.range_succ_eq_map, List.map_cons, List.map_map]
    congr 1
    · exact message_head a ch f vb h
    · refine List.map_congr_left (fun k hk => ?_)
      show specParamChangeMessage (a + 1 + k) ch f (rest.getD k 0) =
          specParamChangeMessage (a + (k+1)) ch f ((vb :: rest).getD (k+1) 0)
      rw [List.getD_cons_succ]
      congr 1
      omega

/-- C6: for a parameter address in 0..155 and a channel in 0..15,
send_dexed_parameter succeeds and emits, for each value byte (a single
integer, or the ASCII codes of a string truncated to ten characters), one
7-byte message of exactly the documented shape, the address advancing by
one per byte; an address outside 0..155 or a channel outside 0..15 is
rejected with an error, and the function flag changes only the documented
bit of the fourth byte (an out-of-64..77 address with the flag set is only
a warning, hence still a success above). -/
theorem c6_parameter_change_messages :
    (∀ (a ch : Int) (f : Bool) (val : ParamValue),
        0 ≤ a → a ≤ 155 → 0 ≤ ch → ch ≤ 15 →
        send_dexed_parameter a val f ch =
          .ok ((List.range (paramValueBytes val).length).map
            (fun k => specParamChangeMessage (a.toNat + k) ch.toNat f
              ((paramValueBytes val).getD k 0)))) ∧
    (∀ (a ch : Int) (f : Bool) (val : ParamValue), (a < 0 ∨ 155 < a) →
        send_dexed_parameter a val f ch = .error "Parameter must be between 0 and 155") ∧
    (∀ (a ch : Int) (f : Bool) (val : ParamValue),
        0 ≤ a → a ≤ 155 → (ch < 0 ∨ 15 < ch) →
        send_dexed_parameter a val f ch = .error "Channel must be between 0 and 15") := by
  refine ⟨fun a ch f val h1 h2 h3 h4 => ?_, fun a ch f val h => ?_,
    fun a ch f val h1 h2 h3 => ?_⟩
  · unfold send_dexed_parameter
    rw [if_neg (by omega), if_neg (by omega)]
    rw [paramChangeLoop_spec _ _ _ _ (by omega)]
  · unfold send_dexed_parameter
    rw [if_pos h]
  · unfold send_dexed_parameter
    rw [if_neg (by omega), if_pos h3]

theorem c6_parameter_change_witness :
    send_dexed_parameter 3 (.str [66, 82, 65]) false 2 =
      .ok [[0xF0, 0x43, 0x12, 0x00, 0x03, 66, 0xF7],
           [0xF0, 0x43, 0x12, 0x00, 0x04, 82, 0xF7],
           [0xF0, 0x43, 0x12, 0x00, 0x05, 65, 0xF7]] :=
  (c6_parameter_change_messages.1 3 2 false (.str [66, 82, 65])
    (by norm_num) (by norm_num) (by norm_num) (by norm_num)).trans (by decide)

/-! ## Claim C8: named-setter range invariant -/

/-- C8: for every named field of the three records, a value one below the
minimum (every minimum is 0) or one above the documented maximum is
rejected with an error and no new state is produced, while both boundary
values succeed and store exactly the written value. -/
theorem c8_range_invariant :
    (∀ (d : List Nat) (p : OscParam),
        oscSetNamed d p (-1) = .error "This parameter is out of its documented range" ∧
        oscSetNamed d p ((oscParamMax p : Int) + 1) =
          .error "This parameter is out of its documented range" ∧
        oscSetNamed d p 0 = .ok (d.set (oscParamIndex p) 0) ∧
        oscSetNamed d p (oscParamMax p) = .ok (d.set (oscParamIndex p) (oscParamMax p))) ∧
    (∀ (d : List Nat) (p : VoiceParam) (m : Nat), voiceParamMax p = some m →
        voiceSetNamed d p (-1) = .error "This parameter is out of its documented range" ∧
        voiceSetNamed d p ((m : Int) + 1) =
          .error "This parameter is out of its documented range" ∧
        voiceSetNamed d p 0 = .ok (d.set (voiceParamIndex p) 0) ∧
        voiceSetNamed d p (m : Int) = .ok (d.set (voiceParamIndex p) m)) ∧
    (∀ (d : List Nat) (p : FunctionParam),
        functionSetNamed d p (-1) = .error "This parameter is out of its documented range" ∧
        functionSetNamed d p ((functionParamMax p : Int) + 1) =
          .error "This parameter is out of its documented range" ∧
        functionSetNamed d p 0 = .ok (d.set (functionParamIndex p) 0) ∧
        functionSetNamed d p (functionParamMax p) =
          .ok (d.set (functionParamIndex p) (functionParamMax p))) := by
  refine ⟨fun d p => ⟨?_, ?_, ?_, ?_⟩, fun d p m hm => ⟨?_, ?_, ?_, ?_⟩,
    fun d p => ⟨?_, ?_, ?_, ?_⟩⟩
  · unfold oscSetNamed; rw [if_pos (by omega)]
  · unfold oscSetNamed; rw [if_pos (by omega)]
  · unfold oscSetNamed; rw [if_neg (by omega)]; rfl
  · unfold oscSetNamed; rw [if_neg (by omega)]; rfl
  · unfold voiceSetNamed; simp only [hm]; rw [if_pos (by omega)]
  · unfold voiceSetNamed; simp only [hm]; rw [if_pos (by omega)]
  · unfold voiceSetNamed; simp only [hm]; rw [if_neg (by omega)]; rfl
  · unfold voiceSetNamed; simp only [hm]; rw [if_neg (by omega)]; rfl
  · unfold functionSetNamed; rw [if_pos (by omega)]
  · unfold functionSetNamed; rw [if_pos (by omega)]
  · unfold functionSetNamed; rw [if_neg (by omega)]; rfl
  · unfold functionSetNamed; rw [if_neg (by omega)]; rfl

theorem c8_range_invariant_witness :
    oscSetNamed (List.replicate 21 0) .Detune 15 =
      .error "This parameter is out of its documented range" ∧
    oscSetNamed (List.replicate 21 0) .Detune 14 =
      .ok ((List.replicate 21 0).set 20 14) ∧
    voiceSetNamed (List.replicate 29 0) .Transpose 49 =
      .error "This parameter is out of its documented range" ∧
    voiceSetNamed (List.replicate 29 0) .Transpose 48 =
      .ok ((List.replicate 29 0).set 18 48) ∧
    functionSetNamed (List.replicate 14 0) .Aftertouch_Range 100 =
      .error "This parameter is out of its documented range" ∧
    functionSetNamed (List.replicate 14 0) .Aftertouch_Range 99 =
      .ok ((List.replicate 14 0).set 12 99) :=
  ⟨((c8_range_invariant.1 (List.replicate 21 0) .Detune).2.1).trans (by decide),
   ((c8_range_invariant.1 (List.replicate 21 0) .Detune).2.2.2).trans (by decide),
   ((c8_range_invariant.2.1 (List.replicate 29 0) .Transpose 48 rfl).2.1).trans (by decide),
   ((c8_range_invariant.2.1 (List.replicate 29 0) .Transpose 48 rfl).2.2.2).trans (by decide),
   ((c8_range_invariant.2.2 (List.replicate 14 0) .Aftertouch_Range).2.1).trans (by decide),
   ((c8_range_invariant.2.2 (List.replicate 14 0) .Aftertouch_Range).2.2.2).trans (by decide)⟩

/-! ## Claim C9: raw integer-indexed access -/

/-- C9 (counterexample): Oscillator.__setitem__ accepts the negative index
-1 - the write is not rejected with an index error; it stores the clamped
value at the last byte (offset 20). -/
theorem c9_negative_index_counterexample :
    oscSetItem (List.replicate 21 0) (-1) 5 =
      .ok ((List.replicate 21 0).set 20 5) := by decide

/-- C9 (amended): the raw views are 0-based; every read and the Voice
write reject any index outside 0..size-1 (negative included) with an index
error; the Oscillator and Function record writes have no explicit check,
so the underlying python list rejects indices at or beyond the size and
below -size, but accepts negative indices -size..-1, which alias from the
end; every raw write that lands clamps the value to abs(value) & 0xFF,
bypassing per-field range validation. -/
theorem c9_raw_index_access :
    (∀ (d : List Nat) (i : Int), (i < 0 ∨ 20 < i) →
        oscGetItem d i = .error "Index out of range") ∧
    (∀ (d : List Nat) (i : Int), 0 ≤ i → i ≤ 20 →
        oscGetItem d i = .ok (d.getD i.toNat 0)) ∧
    (∀ (d : List Nat) (i : Int), (i < 0 ∨ 28 < i) →
        voiceGetItem d i = .error "Index out of range") ∧
    (∀ (d : List Nat) (i : Int), 0 ≤ i → i ≤ 28 →
        voiceGetItem d i = .ok (d.getD i.toNat 0)) ∧
    (∀ (d : List Nat) (i : Int), (i < 0 ∨ 13 < i) →
        functionGetItem d i = .error "Index out of range") ∧
    (∀ (d : List Nat) (i : Int), 0 ≤ i → i ≤ 13 →
        functionGetItem d i = .ok (d.getD i.toNat 0)) ∧
    (∀ (d : List Nat) (i v : Int), (i < 0 ∨ 28 < i) →
        voiceSetItem d i v = .error "Index out of range") ∧
    (∀ (d : List Nat) (i v : Int), 0 ≤ i → i ≤ 28 →
        voiceSetItem d i v = .ok (d.set i.toNat (0xFF &&& v.natAbs))) ∧
    (∀ (d : List Nat) (i v : Int), d.length = 21 → (21 ≤ i ∨ i < -21) →
        oscSetItem d i v = .error "IndexError: list assignment index out of range") ∧
    (∀ (d : List Nat) (i v : Int), d.length = 21 → 0 ≤ i → i ≤ 20 →
        oscSetItem d i v = .ok (d.set i.toNat (0xFF &&& v.natAbs))) ∧
    (∀ (d : List Nat) (i v : Int), d.length = 21 → -21 ≤ i → i < 0 →
        oscSetItem d i v = .ok (d.set (i + 21).toNat (0xFF &&& v.natAbs))) ∧
    (∀ (d : List Nat) (i v : Int), d.length = 14 → (14 ≤ i ∨ i < -14) →
        functionSetItem d i v = .error "IndexError: list assignment index out of range") ∧
    (∀ (d : List Nat) (i v : Int), d.length = 14 → 0 ≤ i → i ≤ 13 →
        functionSetItem d i v = .ok (d.set i.toNat (0xFF &&& v.natAbs))) ∧
    (∀ (d : List Nat) (i v : Int), d.length = 14 → -14 ≤ i → i < 0 →
        functionSetItem d i v = .ok (d.set (i + 14).toNat (0xFF &&& v.natAbs))) := by
  refine ⟨fun d i h => ?_, fun d i h1 h2 => ?_, fun d i h => ?_, fun d i h1 h2 => ?_,
    fun d i h => ?_, fun d i h1 h2 => ?_, fun d i v h => ?_, fun d i v h1 h2 => ?_,
    fun d i v hlen h => ?_, fun d i v hlen h1 h2 => ?_, fun d i v hlen h1 h2 => ?_,
    fun d i v hlen h => ?_, fun d i v hlen h1 h2 => ?_, fun d i v hlen h1 h2 => ?_⟩
  · unfold oscGetItem; rw [if_pos h]
  · unfold oscGetItem; rw [if_neg (by omega)]
  · unfold voiceGetItem; rw [if_pos h]
  · unfold voiceGetItem; rw [if_neg (by omega)]
  · unfold functionGetItem; rw [if_pos h]
  · unfold functionGetItem; rw [if_neg (by omega)]
  · unfold voiceSetItem; rw [if_pos h]
  · unfold voiceSetItem; rw [if_neg (by omega)]
  · unfold oscSetItem pyListSet; rw [hlen]; rw [if_neg (by omega), if_neg (by omega)]
  · unfold oscSetItem pyListSet; rw [hlen]; rw [if_pos (by omega)]
  · unfold oscSetItem pyListSet; rw [hlen]; rw [if_neg (by omega), if_pos (by omega)]; rfl
  · unfold functionSetItem pyListSet; rw [hlen]; rw [if_neg (by omega), if_neg (by omega)]
  · unfold functionSetItem pyListSet; rw [hlen]; rw [if_pos (by omega)]
  · unfold functionSetItem pyListSet; rw [hlen]; rw [if_neg (by omega), if_pos (by omega)]; rfl

theorem c9_raw_index_access_witness :
    oscGetItem (List.replicate 21 0) 21 = .error "Index out of range" ∧
    voiceSetItem (List.replicate 29 0) (-1) 5 = .error "Index out of range" ∧
    oscSetItem (List.replicate 21 0) 3 (-300) = .ok ((List.replicate 21 0).set 3 44) :=
  ⟨c9_raw_index_access.1 (List.replicate 21 0) 21 (by norm_num),
   c9_raw_index_access.2.2.2.2.2.2.1 (List.replicate 29 0) (-1) 5 (by norm_num),
   (c9_raw_index_access.2.2.2.2.2.2.2.2.2.1 (List.replicate 21 0) 3 (-300)
      (by rw [List.length_replicate]) (by norm_num) (by norm_num)).trans (by decide)⟩

theorem c3_read_witness :
    read_from_file (([0xF0, 0x43, 0x00, 0x09, 0x20, 0x00] ++ List.replicate 4096 0) ++ [5, 0xF7]) =
      .ok { checksumWarning := true,
            voices := (List.range 32).map
              (fun i => voiceFromDump (convertFrom32VoiceDumpFormat (List.replicate 4096 0)) i) } := by
  have h := (c3_read_header_and_checksum.1 (List.replicate 4096 0) 5 (by rw [List.length_replicate])).1
  rw [h, checksum_zero]
  rfl
